import Mathlib

/-!
Shallow embedding of the `gatherer` weather-collection pipeline.

Conventions used throughout this development:

* Python floats are modelled as exact rationals.  All values the pipeline
  manipulates are small decimal readings, and every comparison the source
  performs (range bounds, the Meteoclimatic `== 100` sentinel, the
  consistency predicates) is exact on those values.  We use the bespoke
  type `PyQ` below (integer numerator, positive natural denominator,
  reduced by construction) so that every definition evaluates inside the
  kernel; its arithmetic is ordinary rational arithmetic.
* Python `None` is `Option.none`; a value that may be `None` is an `Option`.
* A Python function that can raise is embedded in `Except String` (the
  error payload mirrors the exception message or kind).
* Python strings are processed through structural functions on `List Char`
  that implement the Python `str` operations the source uses (`strip`,
  `lower`, `split`, single-character `replace`, membership).
* Wall-clock instants are integer seconds (`ℤ`); `datetime` objects are the
  structure `PyDateTime` below.  The nondeterministic boundary (HTTP
  responses, `datetime.now`, `dateutil` parsing, timezone conversion) is
  passed in as explicit parameters, so every definition is a pure function
  of its inputs.
-/

namespace Gatherer

/-- Exact rational numbers with a kernel-computable arithmetic: numerator,
positive denominator, kept in lowest terms by the smart constructor
`PyQ.mk'`.  This models CPython's numeric values exactly for the decimal
data the pipeline handles. -/
structure PyQ where
  num : ℤ
  den : ℕ
  den_pos : 0 < den

instance : DecidableEq PyQ := fun a b =>
  decidable_of_iff (a.num = b.num ∧ a.den = b.den) (by
    cases a; cases b; simp)

/-- Normalizing constructor: `PyQ.mk' n d` is the rational `n / d`
(with `d = 0` mapped to `0`, a case no embedded operation reaches). -/
def PyQ.mk' (n d : ℤ) : PyQ :=
  if hd : d = 0 then ⟨0, 1, one_pos⟩
  else
    let n' : ℤ := if d < 0 then -n else n
    let dn : ℕ := d.natAbs
    let g : ℕ := Nat.gcd n'.natAbs dn
    have hdn : 0 < dn := Int.natAbs_pos.mpr hd
    have hg : 0 < g := Nat.gcd_pos_of_pos_right _ hdn
    ⟨n' / (g : ℤ), dn / g,
      Nat.div_pos (Nat.le_of_dvd hdn (Nat.gcd_dvd_right _ _)) hg⟩

/-- Embed an integer. -/
def PyQ.ofInt (n : ℤ) : PyQ := ⟨n, 1, one_pos⟩

instance (n : ℕ) : OfNat PyQ n := ⟨PyQ.ofInt n⟩

instance : Neg PyQ := ⟨fun x => ⟨-x.num, x.den, x.den_pos⟩⟩

instance : Add PyQ :=
  ⟨fun a b => PyQ.mk' (a.num * b.den + b.num * a.den) (a.den * b.den)⟩

instance : Sub PyQ :=
  ⟨fun a b => PyQ.mk' (a.num * b.den - b.num * a.den) (a.den * b.den)⟩

instance : Mul PyQ := ⟨fun a b => PyQ.mk' (a.num * b.num) (a.den * b.den)⟩

instance : Div PyQ := ⟨fun a b => PyQ.mk' (a.num * b.den) (a.den * b.num)⟩

instance : LE PyQ := ⟨fun a b => a.num * b.den ≤ b.num * a.den⟩

instance : LT PyQ := ⟨fun a b => a.num * b.den < b.num * a.den⟩

instance (a b : PyQ) : Decidable (a ≤ b) := Int.decLe _ _

instance (a b : PyQ) : Decidable (a < b) := Int.decLt _ _

/-- Floor of a `PyQ` (the denominator is positive, so Euclidean division
of the numerator by it is exactly the floor). -/
def PyQ.floor (x : PyQ) : ℤ := x.num / (x.den : ℤ)

/-- Ceiling of a `PyQ`. -/
def PyQ.ceil (x : PyQ) : ℤ := -((-x.num) / (x.den : ℤ))

/-- Convenience literal: `pyq n d` is the rational `n / d`. -/
def pyq (n d : ℤ) : PyQ := PyQ.mk' n d

/-- Python `int(x)` on a numeric value truncates toward zero. -/
def pyInt (q : PyQ) : ℤ := if 0 ≤ q.num then q.floor else q.ceil

/-- Round-half-even to an integer, the rounding CPython's `round` applies
to the exact value. -/
def roundHalfEven (x : PyQ) : ℤ :=
  let f := x.floor
  let twiceFrac := 2 * (x.num - f * x.den)
  if twiceFrac = (x.den : ℤ) then (if f % 2 = 0 then f else f + 1)
  else if twiceFrac < (x.den : ℤ) then f else f + 1

/-- Python `round(x, d)` for nonnegative `d`, on the exact value. -/
def pyRound (x : PyQ) (d : ℕ) : PyQ :=
  PyQ.mk' (roundHalfEven (x * PyQ.ofInt (10 ^ d))) (10 ^ d)

/-! ### Python string primitives

The source manipulates strings with `strip`, `lower`, single-character
`replace`/`split`, membership tests and character filters.  These are
implemented structurally on `List Char` so that every concrete payload
evaluates by `decide`. -/

/-- Whitespace characters stripped by Python's `str.strip()`. -/
def isPySpace (c : Char) : Bool :=
  c = ' ' || c = '\t' || c = '\n' || c = '\r' || c = '\x0b' || c = '\x0c'

/-- Python `s.strip()`. -/
def pyStrip (l : List Char) : List Char :=
  ((l.dropWhile isPySpace).reverse.dropWhile isPySpace).reverse

/-- Python `s.lower()` (ASCII range, which is all the source feeds it). -/
def pyLower (l : List Char) : List Char := l.map Char.toLower

/-- Python `s.replace(old, new)` for one-character patterns. -/
def pyReplaceChar (old new : Char) (l : List Char) : List Char :=
  l.map fun c => if c = old then new else c

/-- Python `s.replace(old, "")` for a one-character pattern. -/
def pyDeleteChar (old : Char) (l : List Char) : List Char :=
  l.filter fun c => c ≠ old

/-- Python `s.split(sep)` for a one-character separator: empty pieces are
kept, and the result is never empty. -/
def pySplit (sep : Char) : List Char → List (List Char)
  | [] => [[]]
  | c :: rest =>
    match pySplit sep rest with
    | [] => [[c]]
    | h :: t => if c = sep then [] :: h :: t else (c :: h) :: t

/-- Value of a list of decimal digit characters, most significant first. -/
def digitsToNat (l : List Char) : ℕ :=
  l.foldl (fun a c => 10 * a + (c.toNat - 48)) 0

/-- Python `float(s)` restricted to strings made of digits, `.` and `-`
(the only characters that survive the filtering in `smart_parse_float`):
an optional leading minus sign, then digits with at most one dot and at
least one digit.  `none` models a raised `ValueError`. -/
def pyFloatOfChars (s : List Char) : Option PyQ :=
  let neg := s.headD 'x' = '-'
  let body := if neg then s.tail else s
  if body.contains '-' then none
  else
    let sign : ℤ := if neg then -1 else 1
    match pySplit '.' body with
    | [a] =>
      if a ≠ [] ∧ a.all Char.isDigit then
        some (PyQ.ofInt (sign * (digitsToNat a : ℤ)))
      else none
    | [a, b] =>
      if (a ≠ [] ∨ b ≠ []) ∧ a.all Char.isDigit ∧ b.all Char.isDigit then
        some (PyQ.mk' (sign * ((digitsToNat a : ℤ) * 10 ^ b.length +
          (digitsToNat b : ℤ))) (10 ^ b.length))
      else none
    | _ => none

/-- `WeatherReader.is_na_value` (weather_reader.py lines 630-646):
`value is None or value == "-" or value == "N/A" or value == "NA" or
value == "NaN"`. -/
def is_na_value (value : Option String) : Bool :=
  match value with
  | none => true
  | some s => s = "-" || s = "N/A" || s = "NA" || s = "NaN"

/-- `WeatherReader.smart_parse_float` (src/gatherer/weather_readers/
weather_reader.py lines 597-628).  NA tokens become `none`; the empty
string becomes `0.0`; a string holding both `,` and `.` raises; a comma
string has dots stripped and the comma turned into a dot; finally every
character other than digits, `.` and `-` is dropped and the remainder is
fed to `float`. -/
def smart_parse_float (float_str : Option String) : Except String (Option PyQ) :=
  if is_na_value float_str then .ok none
  else
    let s := (float_str.getD "").toList
    if s.isEmpty then .ok (some 0)
    else if s.contains ',' && s.contains '.' then
      .error "Invalid float format: both comma and dot as separators."
    else
      let s := if s.contains ',' then pyReplaceChar ',' '.' (pyDeleteChar '.' s)
               else s
      let s := s.filter fun c => c.isDigit || c == '.' || c == '-'
      match pyFloatOfChars s with
      | some v => .ok (some v)
      | none => .error "could not convert string to float"

instance (ε α : Type) [DecidableEq ε] [DecidableEq α] :
    DecidableEq (Except ε α) := fun a b =>
  match a, b with
  | .ok x, .ok y => decidable_of_iff (x = y) (by simp)
  | .error x, .error y => decidable_of_iff (x = y) (by simp)
  | .ok _, .error _ => isFalse (by simp)
  | .error _, .ok _ => isFalse (by simp)

/-- A dynamically typed azimuth argument: `None`, a number, or a string. -/
inductive PyVal where
  | vNone
  | vNum (q : PyQ)
  | vStr (s : String)
deriving DecidableEq

/-- The 16 cardinal abbreviations of `smart_azimuth` with their degree
values. -/
def azimuthTranslations : List (String × PyQ) :=
  [("n", 0), ("nne", pyq 45 2), ("ne", 45), ("ene", pyq 135 2),
   ("e", 90), ("ese", pyq 225 2), ("se", 135), ("sse", pyq 315 2),
   ("s", 180), ("ssw", pyq 405 2), ("sw", 225), ("wsw", pyq 495 2),
   ("w", 270), ("wnw", pyq 585 2), ("nw", 315), ("nnw", pyq 675 2)]

/-- `_azimuth_as_float` (weather_reader.py lines 437-444): the value is
first truncated by `int(...)`, then range-checked, with `360` wrapped to
`0`. -/
def azimuth_as_float (azimuth : PyQ) : Option PyQ :=
  let n := pyInt azimuth
  if n < 0 ∨ 360 < n then none
  else if n = 360 then some 0
  else some (PyQ.ofInt n)

/-- `_azimuth_as_string` (weather_reader.py lines 446-484): lowercase,
`o`→`w`, keep only digits and `nesw`, look the result up in the cardinal
table, otherwise fall back to `int(smart_parse_float(...))` with the same
range check.  A `ValueError` from the fallback is caught and becomes
`none`.  The `.ok none` branch of the fallback cannot arise (the cleaned
string is never an NA token, so in Python `int(None)` is unreachable);
like the dead `is None` test of the source it simply yields `none`. -/
def azimuth_as_string (azimuth : String) : Option PyQ :=
  let az := pyReplaceChar 'o' 'w' (pyLower (pyStrip azimuth.toList))
  let clean := az.filter fun c => ("0123456789nesw".toList).contains c
  match azimuthTranslations.lookup (String.mk clean) with
  | some v => some v
  | none =>
    match smart_parse_float (some (String.mk clean)) with
    | .error _ => none
    | .ok none => none
    | .ok (some q) =>
      let parsed := pyInt q
      if parsed < 0 ∨ 360 < parsed then none
      else if parsed = 360 then some 0
      else some (PyQ.ofInt parsed)

/-- `WeatherReader.smart_azimuth` (weather_reader.py lines 421-490).  The
leading guard `azimuth is None or azimuth == "-" or azimuth == "N/A"`
only ever fires for `None` and for the two strings, so it is folded into
the per-constructor dispatch. -/
def smart_azimuth (azimuth : PyVal) : Option PyQ :=
  match azimuth with
  | .vNone => none
  | .vNum q => azimuth_as_float q
  | .vStr s => if s = "-" || s = "N/A" then none else azimuth_as_string s

/-! ### Data model -/

/-- A Python `datetime` as the pipeline observes it: whether it carries a
`tzinfo`, the instant in UTC seconds (meaningful when aware), and the
wall-clock hour/minute in its own timezone (used by the early-reading
policy). -/
structure PyDateTime where
  aware : Bool
  utcSeconds : ℤ
  hour : ℕ
  minute : ℕ
deriving DecidableEq

/-- `WeatherRecord` (src/gatherer/schema/weather_record.py): the twelve
optional numeric fields, the `flagged` boolean, and the non-numeric
bookkeeping fields. -/
structure WeatherRecord where
  id : String
  station_id : String
  source_timestamp : Option PyDateTime
  taken_timestamp : Option PyDateTime
  gatherer_thread_id : Option String
  temperature : Option PyQ
  wind_speed : Option PyQ
  max_wind_speed : Option PyQ
  wind_direction : Option PyQ
  rain : Option PyQ
  cumulative_rain : Option PyQ
  humidity : Option PyQ
  pressure : Option PyQ
  flagged : Bool
  max_temperature : Option PyQ
  min_temperature : Option PyQ
  wind_gust : Option PyQ
  max_wind_gust : Option PyQ
deriving DecidableEq

/-- `WeatherStation` (src/gatherer/schema/weather_station.py); the two
timezone fields hold the `ZoneInfo.key` strings the collector checks. -/
structure WeatherStation where
  id : String
  connection_type : String
  field1 : Option String
  field2 : Option String
  field3 : Option String
  pressure_offset : Option PyQ
  data_timezone : String
  local_timezone : String
deriving DecidableEq

/-! ### Validator (src/postprocessing/validator.py) -/

/-- One entry of the `WEATHER_SAFE_RANGES` loop body: a non-null value
outside `[lo, hi]` is blanked and flags the record. -/
def checkRange (lo hi : PyQ) (value : Option PyQ) (flag : Bool) :
    Option PyQ × Bool :=
  match value with
  | some x => if ¬ (lo ≤ x ∧ x ≤ hi) then (none, true) else (some x, flag)
  | none => (none, flag)

/-- One entry of the `_validate_pair_relationship` loop body: both sides
non-null and the comparison `a <= b` false flags the record. -/
def checkPair (a b : Option PyQ) (flag : Bool) : Bool :=
  match a, b with
  | some x, some y => if ¬ (x ≤ y) then true else flag
  | _, _ => flag

/-- `Validator._validate_safe_ranges` (validator.py lines 50-63): the
twelve fields in the insertion order of `WEATHER_SAFE_RANGES`.  The
Python loop mutates the record; the sequential `let`s mirror the
iterations. -/
def validate_safe_ranges (r : WeatherRecord) : WeatherRecord :=
  let s1 := checkRange (-39) 50 r.temperature r.flagged
  let s2 := checkRange 0 500 r.wind_speed s1.2
  let s3 := checkRange 0 100 r.humidity s2.2
  let s4 := checkRange 800 1100 r.pressure s3.2
  let s5 := checkRange 0 360 r.wind_direction s4.2
  let s6 := checkRange 0 500 r.rain s5.2
  let s7 := checkRange 0 15000 r.cumulative_rain s6.2
  let s8 := checkRange (-39) 50 r.max_temperature s7.2
  let s9 := checkRange (-39) 50 r.min_temperature s8.2
  let s10 := checkRange 0 500 r.max_wind_speed s9.2
  let s11 := checkRange 0 500 r.wind_gust s10.2
  let s12 := checkRange 0 500 r.max_wind_gust s11.2
  { r with
    temperature := s1.1, wind_speed := s2.1, humidity := s3.1,
    pressure := s4.1, wind_direction := s5.1, rain := s6.1,
    cumulative_rain := s7.1, max_temperature := s8.1,
    min_temperature := s9.1, max_wind_speed := s10.1,
    wind_gust := s11.1, max_wind_gust := s12.1, flagged := s12.2 }

/-- `Validator._validate_consistency` (validator.py lines 65-97): the six
ordered pairs, checked with `a <= b`; only the flag is written. -/
def validate_consistency (r : WeatherRecord) : WeatherRecord :=
  let f1 := checkPair r.min_temperature r.temperature r.flagged
  let f2 := checkPair r.temperature r.max_temperature f1
  let f3 := checkPair r.min_temperature r.max_temperature f2
  let f4 := checkPair r.wind_speed r.max_wind_speed f3
  let f5 := checkPair r.wind_gust r.max_wind_gust f4
  let f6 := checkPair r.wind_speed r.wind_gust f5
  { r with flagged := f6 }

/-- `Validator.validate` (validator.py lines 31-48): ranges first, then
consistency. -/
def validate (r : WeatherRecord) : WeatherRecord :=
  validate_consistency (validate_safe_ranges r)

/-! ### Corrector (src/gatherer/postprocessing/corrector.py) -/

/-- `Corrector.apply_pressure_offset` (corrector.py lines 17-33). -/
def apply_pressure_offset (r : WeatherRecord) (offset : Option PyQ) :
    WeatherRecord :=
  match r.pressure, offset with
  | some p, some o => { r with pressure := some (p + o) }
  | _, _ => r

/-- `Corrector.apply_rounding` (corrector.py lines 35-67): the eleven
entries of `numerical_fields`, in source order.  `wind_direction` is not
in that list. -/
def apply_rounding (r : WeatherRecord) (decimals : ℕ) : WeatherRecord :=
  let r := { r with temperature := r.temperature.map (pyRound · decimals) }
  let r := { r with wind_speed := r.wind_speed.map (pyRound · decimals) }
  let r := { r with max_wind_speed := r.max_wind_speed.map (pyRound · decimals) }
  let r := { r with humidity := r.humidity.map (pyRound · decimals) }
  let r := { r with pressure := r.pressure.map (pyRound · decimals) }
  let r := { r with rain := r.rain.map (pyRound · decimals) }
  let r := { r with cumulative_rain := r.cumulative_rain.map (pyRound · decimals) }
  let r := { r with max_temperature := r.max_temperature.map (pyRound · decimals) }
  let r := { r with min_temperature := r.min_temperature.map (pyRound · decimals) }
  let r := { r with wind_gust := r.wind_gust.map (pyRound · decimals) }
  let r := { r with max_wind_gust := r.max_wind_gust.map (pyRound · decimals) }
  r

/-- `Corrector.correct` (corrector.py lines 69-86): offset, then
rounding. -/
def correct (r : WeatherRecord) (offset : Option PyQ) (decimals : ℕ := 1) :
    WeatherRecord :=
  apply_rounding (apply_pressure_offset r offset) decimals

/-! ### Reader template (src/gatherer/weather_readers/weather_reader.py) -/

/-- The live half of the fields skeleton returned by `get_fields`. -/
structure LiveFields where
  temperature : Option PyQ
  wind_speed : Option PyQ
  wind_direction : Option PyQ
  rain : Option PyQ
  humidity : Option PyQ
  pressure : Option PyQ
  wind_gust : Option PyQ
deriving DecidableEq

/-- The daily half of the fields skeleton returned by `get_fields`. -/
structure DailyFields where
  max_temperature : Option PyQ
  min_temperature : Option PyQ
  max_wind_speed : Option PyQ
  max_wind_gust : Option PyQ
  cumulative_rain : Option PyQ
deriving DecidableEq

/-- The fields dictionary a `parse` implementation populates.  (The older
generation of the code names the live half `instant`; the shape is the
same.) -/
structure Fields where
  source_timestamp : Option PyDateTime
  taken_timestamp : PyDateTime
  live : LiveFields
  daily : DailyFields
  flagged : Bool
deriving DecidableEq

/-- `WeatherReader.get_fields` (weather_reader.py lines 199-232): the
empty skeleton; `taken_timestamp` defaults to the current UTC time,
passed in as `now`. -/
def get_fields (now : PyDateTime) : Fields :=
  { source_timestamp := none
    taken_timestamp := now
    live := ⟨none, none, none, none, none, none, none⟩
    daily := ⟨none, none, none, none, none⟩
    flagged := false }

/-- The connection-credential slots a reader may require. -/
inductive ConnField where
  | field1
  | field2
  | field3
deriving DecidableEq

/-- Read a connection slot off a station (`getattr(station, field)`). -/
def connFieldGet (st : WeatherStation) : ConnField → Option String
  | .field1 => st.field1
  | .field2 => st.field2
  | .field3 => st.field3

/-- The per-reader state set up by `WeatherReader.__init__`:
`required_fields` (filled in by the subclass), the early-reading opt-in,
and `max_reading_age_seconds = 1800`. -/
structure ReaderCfg where
  required_fields : List ConnField
  ignore_early_readings : Bool
  max_reading_age_seconds : ℤ
deriving DecidableEq

/-- `WeatherReader.__init__` (weather_reader.py lines 29-47): the age
bound is hard-wired to 1800 seconds (30 minutes). -/
def mkWeatherReader (required : List ConnField)
    (ignore_early_readings : Bool := false) : ReaderCfg :=
  { required_fields := required
    ignore_early_readings := ignore_early_readings
    max_reading_age_seconds := 1800 }

/-- `WeatherReader.validate_connection_fields` (lines 123-137). -/
def validate_connection_fields (cfg : ReaderCfg) (st : WeatherStation) : Bool :=
  cfg.required_fields.all fun f => (connFieldGet st f).isSome

/-- The four failure branches of `validate_date_age`, one per error
message of the source. -/
inductive DateFailure where
  | dateIsNone
  | dateHasNoTimezone
  | dateInFuture
  | dateTooOld
deriving DecidableEq

/-- The timestamp error kinds of the specification (section 7); the two
"absent or naive" branches are both `MissingTimestamp`. -/
inductive TimestampErrorKind where
  | missingTimestamp
  | futureTimestamp
  | staleTimestamp
deriving DecidableEq

/-- Which spec-level kind a `validate_date_age` branch belongs to. -/
def DateFailure.kind : DateFailure → TimestampErrorKind
  | .dateIsNone => .missingTimestamp
  | .dateHasNoTimezone => .missingTimestamp
  | .dateInFuture => .futureTimestamp
  | .dateTooOld => .staleTimestamp

/-- `WeatherReader.validate_date_age` (weather_reader.py lines 342-377):
`(is_valid, error)` with the four rejection branches in source order.
`astimezone(utc)` is the identity on the UTC instant an aware datetime
already carries, so the comparison happens on `utcSeconds`. -/
def validate_date_age (maxReadingAgeSeconds nowUtc : ℤ)
    (date : Option PyDateTime) : Bool × Option DateFailure :=
  match date with
  | none => (false, some .dateIsNone)
  | some d =>
    if d.aware = false then (false, some .dateHasNoTimezone)
    else if nowUtc < d.utcSeconds then (false, some .dateInFuture)
    else if maxReadingAgeSeconds < nowUtc - d.utcSeconds then
      (false, some .dateTooOld)
    else (true, none)

/-- `WeatherReader.build_weather_record` (weather_reader.py lines
234-276): copy the fields into the record shape; the daily half is
suppressed when `use_daily` is false. -/
def build_weather_record (freshId : String) (fields : Fields)
    (st : WeatherStation) (use_daily : Bool) : WeatherRecord :=
  { id := freshId
    station_id := st.id
    source_timestamp := fields.source_timestamp
    taken_timestamp := some fields.taken_timestamp
    flagged := fields.flagged
    gatherer_thread_id := none
    temperature := fields.live.temperature
    wind_speed := fields.live.wind_speed
    wind_direction := fields.live.wind_direction
    rain := fields.live.rain
    humidity := fields.live.humidity
    pressure := fields.live.pressure
    wind_gust := fields.live.wind_gust
    max_temperature := if use_daily then fields.daily.max_temperature else none
    min_temperature := if use_daily then fields.daily.min_temperature else none
    cumulative_rain := if use_daily then fields.daily.cumulative_rain else none
    max_wind_speed := if use_daily then fields.daily.max_wind_speed else none
    max_wind_gust := if use_daily then fields.daily.max_wind_gust else none }

/-- Outcome of `WeatherReader.read`: a raised `ValueError` for a missing
connection field, `None` for missing data, `None`-after-logging for a
timestamp-policy violation (the logged branch is recorded), or a built
record. -/
inductive ReadOutcome where
  | missingFieldError (msg : String)
  | noData
  | invalidDate (failure : DateFailure)
  | success (record : WeatherRecord)
deriving DecidableEq

/-- `WeatherReader.read` (weather_reader.py lines 139-197).  `raw_data`
is the result of `fetch_data` (the HTTP boundary, supplied by the
caller); `parse` is the subclass hook.  On a timestamp violation the
source logs the error message and returns `None`; that branch is
`invalidDate`.  The `source_timestamp` access in the early-reading check
happens after validation succeeded, so the timestamp is present there;
`getD` supplies the unreachable default. -/
def WeatherReader.read {ρ : Type} (cfg : ReaderCfg) (nowUtc : ℤ)
    (freshId : String) (st : WeatherStation) (raw_data : Option ρ)
    (parse : ρ → Option Fields) : ReadOutcome :=
  if ¬ validate_connection_fields cfg st then
    .missingFieldError ("Station " ++ st.id ++
      " is missing a required connection field.")
  else
    match raw_data with
    | none => .noData
    | some raw =>
      match parse raw with
      | none => .noData
      | some fields =>
        match validate_date_age cfg.max_reading_age_seconds nowUtc
            fields.source_timestamp with
        | (false, some failure) => .invalidDate failure
        | (false, none) => .noData
        | (true, _) =>
          let src := fields.source_timestamp.getD fields.taken_timestamp
          let tk := fields.taken_timestamp
          let use_daily :=
            if cfg.ignore_early_readings then
              if (src.hour = 0 ∧ src.minute < 60) ∨
                  (tk.hour = 0 ∧ tk.minute < 60) then
                if src.minute < 60 ∨ tk.minute < 60 then false else true
              else true
            else true
          .success (build_weather_record freshId fields st use_daily)

/-! ### Collector (src/gatherer/gatherer.py) -/

/-- A per-station result entry: `{"status": "success"}` or
`{"status": "error", "error": msg}`. -/
inductive StationResult where
  | success
  | error (msg : String)
deriving DecidableEq

/-- `StationResult.isError r` is true on the error entries. -/
def StationResult.isError : StationResult → Bool
  | .success => false
  | .error _ => true

/-- The persistence calls `process_station` makes: how many times
`Database.increment_incident_count(station.id)` ran, and the records
passed to `Database.save_record`. -/
structure DbEffects where
  incident_increments : ℕ
  saved_records : List WeatherRecord
deriving DecidableEq

/-- The timezone allow-list of `validate_station_timezones`. -/
def valid_timezones : List String := ["Europe/Madrid", "Europe/Lisbon", "Etc/UTC"]

/-- `Gatherer.validate_station_timezones` (gatherer.py lines 67-78). -/
def validate_station_timezones (st : WeatherStation) : Bool :=
  valid_timezones.contains st.data_timezone &&
    valid_timezones.contains st.local_timezone

/-- `Gatherer._process_record` (gatherer.py lines 137-145): stamp the
station and run ids, then corrector, then validator. -/
def process_record (run_id : String) (record : WeatherRecord)
    (st : WeatherStation) : WeatherRecord :=
  let record := { record with station_id := st.id,
                              gatherer_thread_id := some run_id }
  let record := correct record st.pressure_offset
  validate record

/-- `Gatherer.process_station` (gatherer.py lines 80-135).  `readers` is
the reader-factory map; the per-station fresh reader's `read` call is the
supplied function, whose `Except.error` constructor models any exception
raised inside the `try` block (reader, postprocessor or persistence).
The returned effects record what the `Database` interface was asked to
do: `increment_incident_count` runs exactly in the exception handler when
not in dry-run, and `save_record` runs exactly on the success path when
not in dry-run.  (The benchmark-sample accumulation has no effect on the
result or the database and is elided.) -/
def process_station (dry_run : Bool) (run_id : String)
    (readers : String → Option (WeatherStation →
      Except String (Option WeatherRecord)))
    (st : WeatherStation) : StationResult × DbEffects :=
  if ¬ validate_station_timezones st then
    (.error ("Invalid timezone for station " ++ st.id), ⟨0, []⟩)
  else
    match readers st.connection_type with
    | none => (.error ("Invalid connection type for station " ++ st.id), ⟨0, []⟩)
    | some reader_read =>
      match reader_read st with
      | .error e => (.error e, ⟨if dry_run then 0 else 1, []⟩)
      | .ok none =>
        (.error ("No data retrieved for station " ++ st.id), ⟨0, []⟩)
      | .ok (some record) =>
        let record := process_record run_id record st
        if ¬ dry_run then (.success, ⟨0, [record]⟩)
        else (.success, ⟨0, []⟩)

/-- `Gatherer._split_into_chunks` (gatherer.py lines 176-188):
`max_threads` contiguous base slices of `len // max_threads` stations;
then chunk `i < len % max_threads` gets `stations[-(i+1)]` appended
(rendered as the one-element slice from that tail index). -/
def split_into_chunks {α : Type} (max_threads : ℕ) (stations : List α) :
    List (List α) :=
  let chunk_size := stations.length / max_threads
  let remainder_size := stations.length % max_threads
  (List.range max_threads).map fun i =>
    (stations.drop (i * chunk_size)).take chunk_size ++
      (if i < remainder_size then
        (stations.drop (stations.length - 1 - i)).take 1
      else [])

/-- The result map a worker builds for its chunk
(`{station.id: self.process_station(station) for station in chunk}`),
as an association list. -/
def chunk_results {α β κ : Type} (key : α → κ) (f : α → β)
    (chunk : List α) : List (κ × β) :=
  chunk.map fun s => (key s, f s)

/-- `Gatherer.multithread_processing` (gatherer.py lines 157-174): every
chunk's result map, merged.  With pairwise-distinct keys the
`results.update(...)` merge is exactly the concatenation of the
association lists, so the merged map is modelled as the join. -/
def multithread_processing {α β κ : Type} (max_threads : ℕ) (key : α → κ)
    (f : α → β) (stations : List α) : List (κ × β) :=
  ((split_into_chunks max_threads stations).map (chunk_results key f)).flatten

/-- The single-threaded result map
(`{station.id: self.process_station(station) for station in stations}`). -/
def singlethread_processing {α β κ : Type} (key : α → κ) (f : α → β)
    (stations : List α) : List (κ × β) :=
  chunk_results key f stations

/-! ### Meteoclimatic reader
(src/gatherer/weather_readers/meteoclimatic_reader.py) -/

/-- `CODE_TO_NAME` (meteoclimatic_reader.py lines 145-188). -/
def CODE_TO_NAME : List (String × String) :=
  [("VER", "version"), ("COD", "station_code"), ("SIG", "signature"),
   ("UPD", "record_timestamp"), ("TMP", "current_temperature_celsius"),
   ("WND", "current_wind_speed_kph"), ("AZI", "current_wind_direction"),
   ("BAR", "pressure_hpa"), ("HUM", "relative_humidity"),
   ("SUN", "solar_radiation_index"), ("UVI", "uva_index"),
   ("DHTM", "daily_max_temperature"), ("DLTM", "daily_min_temperature"),
   ("DHHM", "daily_max_humidity"), ("DLHM", "daily_min_humidity"),
   ("DHBR", "daily_max_pressure"), ("DLBR", "daily_min_pressure"),
   ("DGST", "daily_max_wind_gust"),
   ("DSUN", "daily_max_solar_radiation_index"),
   ("DHUV", "daily_max_uva_index"),
   ("DPCP", "total_daily_precipitation_at_record_timestamp"),
   ("WRUN", "wind_run_distance_daily"), ("MHTM", "monthly_max_temperature"),
   ("MLTM", "monthly_min_temperature"), ("MHHM", "monthly_max_humidity"),
   ("MLHM", "monthly_min_humidity"), ("MHBR", "monthly_max_pressure"),
   ("MLBR", "monthly_min_pressure"), ("MSUN", "monthly_max_solar_index"),
   ("MHUV", "monthly_max_uva_index"), ("MGST", "monthly_max_wind_speed"),
   ("MPCP", "total_precipitation_current_month"),
   ("YHTM", "yearly_max_temperature"), ("YLTM", "yearly_min_temperature"),
   ("YHHM", "yearly_max_humidity"), ("YLHM", "yearly_min_humidity"),
   ("YHBR", "yearly_max_pressure"), ("YLBR", "yearly_min_pressure"),
   ("YGST", "yearly_max_wind_speed"), ("YSUN", "yearly_max_solar_index"),
   ("YHUV", "yearly_max_uva_index"),
   ("YPCP", "total_precipitation_current_year")]

/-- `WHITELIST` (meteoclimatic_reader.py lines 190-201). -/
def WHITELIST : List String :=
  ["UPD", "TMP", "WND", "DGST", "AZI", "DPCP", "HUM", "BAR", "DHTM", "DLTM"]

/-- One iteration of the tokenizing loop (meteoclimatic_reader.py lines
40-46): strip, skip empty or `=`-free lines, split on `=` into exactly
two pieces (three or more raise `ValueError: too many values to
unpack`), strip both halves. -/
def meteoTokenLine (line : List Char) : Except String (Option (String × String)) :=
  let line := pyStrip line
  if line = [] ∨ ¬ line.contains '=' then .ok none
  else
    match pySplit '=' line with
    | [k, v] => .ok (some (String.mk (pyStrip k), String.mk (pyStrip v)))
    | _ => .error "too many values to unpack"

/-- A Python `dict` keyed by strings, as an association list in which a
later assignment shadows an earlier binding (new bindings are consed in
front, `lookup` finds the most recent one). -/
def dictSet (d : List (String × String)) (k v : String) :
    List (String × String) :=
  (k, v) :: d

/-- The tokenizing loop of `MeteoclimaticReader.parse` (lines 39-49):
split the payload on `*` and collect the whitelisted `KEY=VALUE` pairs
into the `data` dict under their `CODE_TO_NAME` names. -/
def meteoDataDict (live_data : String) :
    Except String (List (String × String)) :=
  (pySplit '*' (pyStrip live_data.toList)).foldlM
    (fun d line => do
      match ← meteoTokenLine line with
      | none => pure d
      | some (k, v) =>
        match CODE_TO_NAME.lookup k with
        | some name => if WHITELIST.contains k then pure (dictSet d name v)
                       else pure d
        | none => pure d)
    []

/-- Wrap a `data.get(key, None)` result for `smart_azimuth`. -/
def pyValOfOpt (v : Option String) : PyVal :=
  match v with
  | none => .vNone
  | some s => .vStr s

/-- The sentinel blanking `None if x == 100 else x` applied to every
whitelisted measurement in this generation of the reader. -/
def blankIfSentinel100 (v : Option PyQ) : Option PyQ :=
  if v = some 100 then none else v

/-- `MeteoclimaticReader.parse` (meteoclimatic_reader.py lines 23-115).
The time-dependent boundary is passed in: `parse_datetime` stands for
`smart_parse_datetime(_, timezone=station.data_timezone)` (it may raise,
and may return `None`), `to_local` for the
`replace(tzinfo=data_timezone).astimezone(local_timezone)` conversion,
and `now` for the `taken_timestamp` default of `get_fields`.  `data_live`
is `data["live"]`; a missing or empty payload raises.  Each measurement
is parsed with `smart_parse_float` (whose `ValueError` propagates) and
then recorded through the `None if x == 100 else x` sentinel blanking of
lines 74-113; the wind direction is assigned at line 67 and again,
blanked, at lines 78-81. -/
def meteoclimatic_parse
    (parse_datetime : String → Except String (Option PyDateTime))
    (to_local : PyDateTime → PyDateTime) (now : PyDateTime)
    (data_live : Option String) : Except String Fields := do
  let live_data ← match data_live with
    | none => .error "No data received from the station."
    | some s =>
      if s.toList = [] then .error "No data received from the station."
      else .ok s
  let d ← meteoDataDict live_data
  let ts_str ← match d.lookup "record_timestamp" with
    | none => .error "KeyError: record_timestamp"
    | some s => .ok s
  let ts ← parse_datetime ts_str
  let ts ← match ts with
    | none => .error "Cannot accept a reading without a timestamp."
    | some t => .ok t
  let local_observation_time := to_local ts
  let fields := get_fields now
  let fields := { fields with source_timestamp := some local_observation_time }
  let fields := { fields with
    live.wind_direction :=
      smart_azimuth (pyValOfOpt (d.lookup "current_wind_direction")) }
  let temperature ← smart_parse_float (d.lookup "current_temperature_celsius")
  let fields := { fields with
    live.temperature := blankIfSentinel100 temperature }
  let wind_speed ← smart_parse_float (d.lookup "current_wind_speed_kph")
  let fields := { fields with live.wind_speed := blankIfSentinel100 wind_speed }
  let wind_direction :=
    smart_azimuth (pyValOfOpt (d.lookup "current_wind_direction"))
  let fields := { fields with
    live.wind_direction := blankIfSentinel100 wind_direction }
  let humidity ← smart_parse_float (d.lookup "relative_humidity")
  let fields := { fields with live.humidity := blankIfSentinel100 humidity }
  let pressure ← smart_parse_float (d.lookup "pressure_hpa")
  let fields := { fields with live.pressure := blankIfSentinel100 pressure }
  let cumulative_rain ← smart_parse_float
    (d.lookup "total_daily_precipitation_at_record_timestamp")
  let fields := { fields with
    daily.cumulative_rain := blankIfSentinel100 cumulative_rain }
  let max_temperature ← smart_parse_float (d.lookup "daily_max_temperature")
  let fields := { fields with
    daily.max_temperature := blankIfSentinel100 max_temperature }
  let min_temperature ← smart_parse_float (d.lookup "daily_min_temperature")
  let fields := { fields with
    daily.min_temperature := blankIfSentinel100 min_temperature }
  let max_wind_gust ← smart_parse_float (d.lookup "daily_max_wind_gust")
  let fields := { fields with
    daily.max_wind_gust := blankIfSentinel100 max_wind_gust }
  pure fields

/-! ### WeatherlinkV2 reader (src/weather_readers/weatherlink_v2_reader.py,
the older generation of the code base, which is the one that still has a
WeatherlinkV2 adapter).  Sensor data points are JSON objects holding
numeric measurements, modelled as association lists. -/

/-- One element of a sensor's `data` array. -/
structure V2DataPoint where
  entries : List (String × PyQ)
deriving DecidableEq

/-- One element of the `sensors` array. -/
structure V2Sensor where
  data : List V2DataPoint
deriving DecidableEq

/-- A decoded (non-empty, hence truthy) WeatherLink V2 response body:
a JSON object whose `sensors` key may be absent. -/
structure V2Json where
  sensors : Option (List V2Sensor)
deriving DecidableEq

/-- The raw envelope `parse` receives: `{"live": ..., "daily": ...}`
where `daily := none` models the `"daily"` key being absent from the
dict (as `fetch_data` builds it after a failed daily request). -/
structure V2Raw where
  live : V2Json
  daily : Option V2Json
deriving DecidableEq

/-- An HTTP response as the reader sees it: status code and decoded
body. -/
structure V2HttpResponse where
  status_code : ℕ
  body : V2Json
deriving DecidableEq

/-- `WeatherReader.make_request` (old-generation weather_reader.py lines
208-237): any status outside `{200, 201, 204}` logs an error and returns
`None`. -/
def make_request (resp : V2HttpResponse) : Option V2HttpResponse :=
  if [200, 201, 204].contains resp.status_code then some resp else none

/-- `WeatherlinkV2Reader.fetch_data` (weatherlink_v2_reader.py lines
251-301).  Accessing `.status_code` on the `None` that `make_request`
returns for a status outside `{200, 201, 204}` raises `AttributeError`.
For a daily status of 201 or 204 the reader logs its warning (the
returned flag) and builds the envelope without the `"daily"` key.  The
URL/parameter plumbing has no effect on the result and is elided. -/
def weatherlink_v2_fetch_data (live_resp daily_resp : V2HttpResponse) :
    Except String (Option V2Raw × Bool) :=
  match make_request live_resp with
  | none => .error "AttributeError: NoneType has no attribute status_code"
  | some lr =>
    if lr.status_code ≠ 200 then .ok (none, false)
    else
      match make_request daily_resp with
      | none => .error "AttributeError: NoneType has no attribute status_code"
      | some dr =>
        if dr.status_code ≠ 200 then .ok (some ⟨lr.body, none⟩, true)
        else .ok (some ⟨lr.body, some dr.body⟩, false)

/-- The per-key collection loop shared by `handle_current_data` and
`handle_historic_data`: all values stored under `key` across every
sensor's data points, in iteration order. -/
def collectKey (sensors : List V2Sensor) (key : String) : List PyQ :=
  (sensors.map fun s => s.data.filterMap fun dp => dp.entries.lookup key).flatten

/-- `WeatherReader.max_or_none`: `max(list)` or `None` when empty
(Python's `max` keeps the earlier element on ties). -/
def max_or_none (l : List PyQ) : Option PyQ :=
  match l with
  | [] => none
  | x :: xs => some (xs.foldl (fun a b => if b ≤ a then a else b) x)

/-- `WeatherReader.min_or_none`: `min(list)` or `None` when empty. -/
def min_or_none (l : List PyQ) : Option PyQ :=
  match l with
  | [] => none
  | x :: xs => some (xs.foldl (fun a b => if b < a then b else a) x)

/-- `WeatherReader.coalesce`: the first non-`None` element. -/
def coalesce (l : List (Option PyQ)) : Option PyQ :=
  match l with
  | [] => none
  | none :: rest => coalesce rest
  | some v :: _ => some v

/-- `self.coalesce` applied to one of the raw per-key value lists (whose
elements are numbers): the first element, if any. -/
def coalesceValues (l : List PyQ) : Option PyQ := l.head?

/-- The tuple `handle_current_data` returns. -/
structure V2Current where
  timestamp : Option PyQ
  temperature : Option PyQ
  wind_speed : Option PyQ
  wind_direction : Option PyQ
  rain : Option PyQ
  cumulative_rain : Option PyQ
  humidity : Option PyQ
  pressure : Option PyQ
  wind_gust : Option PyQ
deriving DecidableEq

/-- `WeatherlinkV2Reader.handle_current_data` (lines 29-133): coalesce
the overlapping sensor measurements by the fixed preference lists; the
observation time is the max of `ts` across sensors.  (The collected
`wind_gust_10_min` list is never read by the source; it has no
counterpart here.) -/
def handle_current_data (current : List V2Sensor) : V2Current :=
  { timestamp := max_or_none (collectKey current "ts")
    temperature := coalesce
      [coalesceValues (collectKey current "temp"),
       coalesceValues (collectKey current "temp_out")]
    wind_speed := coalesce
      [coalesceValues (collectKey current "wind_speed"),
       max_or_none (collectKey current "wind_speed_last")]
    wind_direction := coalesce
      [coalesceValues (collectKey current "wind_dir"),
       max_or_none (collectKey current "wind_dir_last")]
    rain := coalesce
      [coalesceValues (collectKey current "rain_rate_mm"),
       coalesceValues (collectKey current "rain_rate_last_mm")]
    cumulative_rain := coalesce
      [max_or_none (collectKey current "rain_day_mm"),
       max_or_none (collectKey current "rainfall_daily_mm")]
    humidity := coalesce
      [coalesceValues (collectKey current "hum"),
       coalesceValues (collectKey current "hum_out")]
    pressure := coalesce
      [coalesceValues (collectKey current "bar"),
       coalesceValues (collectKey current "bar_sea_level")]
    wind_gust := coalesce
      [max_or_none (collectKey current "wind_speed_hi_last_10_min"),
       coalesceValues (collectKey current "wind_gust")] }

/-- The tuple `handle_historic_data` returns. -/
structure V2Historic where
  max_wind_speed : Option PyQ
  cumulative_rain : Option PyQ
  max_temp : Option PyQ
  min_temp : Option PyQ
deriving DecidableEq

/-- `WeatherlinkV2Reader.handle_historic_data` (lines 135-172). -/
def handle_historic_data (historic : List V2Sensor) : V2Historic :=
  { max_wind_speed := max_or_none (collectKey historic "wind_speed_hi")
    cumulative_rain := max_or_none (collectKey historic "rainfall_mm")
    max_temp := max_or_none (collectKey historic "temp_hi")
    min_temp := min_or_none (collectKey historic "temp_lo") }

/-- `UnitConverter.fahrenheit_to_celsius` (utils.py):
`round((f - 32) * 5/9, 4)`, `None`-propagating. -/
def fahrenheit_to_celsius (f : Option PyQ) : Option PyQ :=
  f.map fun x => pyRound ((x - 32) * 5 / 9) 4

/-- `UnitConverter.mph_to_kph` (utils.py): `round(s * 1.60934, 4)`,
`None`-propagating (the constant is exact here). -/
def mph_to_kph (s : Option PyQ) : Option PyQ :=
  s.map fun x => pyRound (x * pyq 160934 100000) 4

/-- `UnitConverter.psi_to_hpa` (utils.py): `round(p * 33.8639, 4)`,
`None`-propagating (the constant is exact here). -/
def psi_to_hpa (p : Option PyQ) : Option PyQ :=
  p.map fun x => pyRound (x * pyq 338639 10000) 4

/-- `WeatherlinkV2Reader.parse` (weatherlink_v2_reader.py lines 174-249).
`from_timestamp_local` stands for
`datetime.fromtimestamp(ts, data_timezone).astimezone(local_timezone)`,
and `now` for the `taken_timestamp` default.  The `data["daily"]` lookup
raises `KeyError` whenever `fetch_data` omitted the key; iterating a
missing `sensors` array raises `TypeError`, as does a missing
timestamp in `fromtimestamp`. -/
def weatherlink_v2_parse (from_timestamp_local : PyQ → PyDateTime)
    (now : PyDateTime) (data : V2Raw) : Except String Fields := do
  let current_data := data.live.sensors
  let daily_data : Option (List V2Sensor) ←
    match data.daily with
    | none => .error "KeyError: daily"
    | some dj => .ok dj.sensors
  let current ← match current_data with
    | none => .error "TypeError: NoneType object is not iterable"
    | some l => .ok l
  let c := handle_current_data current
  let h : V2Historic := match daily_data with
    | some dl => handle_historic_data dl
    | none => ⟨none, none, none, none⟩
  let final_cumulative_rain := coalesce [c.cumulative_rain, h.cumulative_rain]
  let ts ← match c.timestamp with
    | none => .error "TypeError: fromtimestamp expects a number"
    | some t => .ok t
  let local_observation_time := from_timestamp_local ts
  let fields := get_fields now
  let fields := { fields with source_timestamp := some local_observation_time }
  let fields := { fields with
    live.temperature := fahrenheit_to_celsius c.temperature
    live.wind_speed := mph_to_kph c.wind_speed
    live.wind_direction := c.wind_direction
    live.rain := c.rain
    live.humidity := c.humidity
    live.pressure := psi_to_hpa c.pressure
    live.wind_gust := mph_to_kph c.wind_gust }
  let fields := { fields with
    daily.max_wind_speed := mph_to_kph h.max_wind_speed
    daily.cumulative_rain := final_cumulative_rain
    daily.max_temperature := fahrenheit_to_celsius h.max_temp
    daily.min_temperature := fahrenheit_to_celsius h.min_temp }
  pure fields

/-- Outcome of the older generation's template method `get_data`
(old weather_reader.py lines 78-129): an uncaught exception, `None`, or
a built record.  In this generation a timestamp-policy violation is only
logged (`date_warning` records it) and the record is still built. -/
inductive GetDataOutcome where
  | exn (msg : String)
  | noData
  | record (rec : WeatherRecord) (date_warning : Option DateFailure)
deriving DecidableEq

/-- `WeatherReader.get_data` of the older generation (old
weather_reader.py lines 78-129): like `WeatherReader.read` but the
subclass `parse` may raise, `validate_date_age` failures are logged and
do not stop the record, and the early-reading check looks only at
`source_timestamp`. -/
def WeatherReaderV0.get_data {ρ : Type} (cfg : ReaderCfg) (nowUtc : ℤ)
    (freshId : String) (st : WeatherStation)
    (raw_data : Except String (Option ρ))
    (parse : ρ → Except String (Option Fields)) : GetDataOutcome :=
  if ¬ validate_connection_fields cfg st then
    .exn ("Station " ++ st.id ++ " is missing a required connection field.")
  else
    match raw_data with
    | .error e => .exn e
    | .ok none => .noData
    | .ok (some raw) =>
      match parse raw with
      | .error e => .exn e
      | .ok none => .noData
      | .ok (some fields) =>
        let vd := validate_date_age cfg.max_reading_age_seconds nowUtc
          fields.source_timestamp
        let src := fields.source_timestamp.getD fields.taken_timestamp
        let use_daily :=
          if cfg.ignore_early_readings then
            if src.hour = 0 ∧ src.minute < 60 then
              if src.minute < 60 then false else true
            else true
          else true
        .record (build_weather_record freshId fields st use_daily)
          (if vd.1 then none else vd.2)

/-! ### Rational-value bridge

`PyQ.toRat` reads a `PyQ` as the rational number it denotes; the lemmas
below transport order, floor and ceiling to `ℚ`, where Mathlib's API
applies. -/

/-- The rational number a `PyQ` denotes. -/
def PyQ.toRat (x : PyQ) : ℚ := (x.num : ℚ) / (x.den : ℚ)

/-! ### Specification-side characterizations and concrete instances

The `spec*` definitions below follow the specification's words; the
theorems compare them with the embedded code. -/

/-- Spec wording for the range pass, per field: a non-null value outside
the inclusive range is blanked; an in-range value is kept. -/
def specRangeFilter (lo hi : PyQ) (v : Option PyQ) : Option PyQ :=
  match v with
  | some x => if lo ≤ x ∧ x ≤ hi then some x else none
  | none => none

/-- Whether a field value is non-null and out of range (what sets the
flag in the range pass). -/
def specOutOfRange (lo hi : PyQ) (v : Option PyQ) : Bool :=
  match v with
  | some x => decide (¬ (lo ≤ x ∧ x ≤ hi))
  | none => false

/-- Whether an ordered pair has both sides non-null with the left
strictly greater than the right (what sets the flag in the consistency
pass). -/
def specPairViolation (a b : Option PyQ) : Bool :=
  match a, b with
  | some x, some y => decide (¬ x ≤ y)
  | _, _ => false

/-- The pairwise consistency predicate: whenever both sides are present,
the left is at most the right. -/
def specPairLE (a b : Option PyQ) : Prop :=
  ∀ x y, a = some x → b = some y → x ≤ y

/-- A record with every optional field absent. -/
def emptyRecord : WeatherRecord :=
  { id := "", station_id := "", source_timestamp := none,
    taken_timestamp := none, gatherer_thread_id := none,
    temperature := none, wind_speed := none, max_wind_speed := none,
    wind_direction := none, rain := none, cumulative_rain := none,
    humidity := none, pressure := none, flagged := false,
    max_temperature := none, min_temperature := none, wind_gust := none,
    max_wind_gust := none }

/-- The worked range example of the specification:
`temperature=-100, humidity=150, pressure=900`. -/
def exRangeRecord : WeatherRecord :=
  { emptyRecord with temperature := some (-100), humidity := some 150,
                     pressure := some 900 }

/-- The worked consistency example of the specification:
`min_temperature=30, temperature=20, max_temperature=10`. -/
def exConsistencyRecord : WeatherRecord :=
  { emptyRecord with min_temperature := some 30, temperature := some 20,
                     max_temperature := some 10 }

/-- A record whose `wind_direction` carries more than one decimal
(123.456 = 15432/125). -/
def exWindDirRecord : WeatherRecord :=
  { emptyRecord with wind_direction := some (pyq 15432 125) }

/-- A station with all slots populated and allowed timezones. -/
def stPlain : WeatherStation :=
  { id := "st-1", connection_type := "testtype", field1 := some "f1",
    field2 := none, field3 := none, pressure_offset := none,
    data_timezone := "Etc/UTC", local_timezone := "Etc/UTC" }

/-- A station whose `data_timezone` is outside the allow-list. -/
def stBadTz : WeatherStation :=
  { id := "st-2", connection_type := "ecowitt", field1 := some "f1",
    field2 := none, field3 := none, pressure_offset := none,
    data_timezone := "America/New_York", local_timezone := "Etc/UTC" }

/-- "Now" for the concrete timestamp scenarios: 100000 s, 10:00. -/
def dtNow : PyDateTime := ⟨true, 100000, 10, 0⟩

/-- An aware observation time 2100 seconds (35 minutes) before
`dtNow`. -/
def dtStale : PyDateTime := ⟨true, 97900, 9, 25⟩

/-- A parsed fields dict whose `source_timestamp` is `dtStale`. -/
def staleFields : Fields :=
  { get_fields dtNow with source_timestamp := some dtStale }

/-- A parse hook returning `staleFields` (the raw payload is opaque). -/
def staleParse : Unit → Option Fields := fun _ => some staleFields

/-- A reader-factory map with no readers at all. -/
def readersEmpty : String →
    Option (WeatherStation → Except String (Option WeatherRecord)) :=
  fun _ => none

/-- A reader whose `read` raises (any exception inside the `try`). -/
def readerBoom : WeatherStation → Except String (Option WeatherRecord) :=
  fun _ => .error "boom"

/-- A reader-factory map resolving every tag to `readerBoom`. -/
def readersBoom : String →
    Option (WeatherStation → Except String (Option WeatherRecord)) :=
  fun _ => some readerBoom

/-- A Meteoclimatic payload whose whitelisted temperature reads the
sentinel `100`. -/
def payloadSentinel : String :=
  "*VER=DATA2*COD=ES123*UPD=12/05/2024 10:05*TMP=100*WND=14*AZI=270" ++
    "*BAR=1018.8*HUM=70*DPCP=0*DHTM=19.2*DLTM=9.2*DGST=37*"

/-- The timestamp oracle for the concrete Meteoclimatic scenario: every
string parses to `dtNow`. -/
def meteoOracleDT : String → Except String (Option PyDateTime) :=
  fun _ => .ok (some dtNow)

/-- The data dict the tokenizer builds from `payloadSentinel` (most
recent binding first). -/
def dictSentinel : List (String × String) :=
  [("daily_max_wind_gust", "37"), ("daily_min_temperature", "9.2"),
   ("daily_max_temperature", "19.2"),
   ("total_daily_precipitation_at_record_timestamp", "0"),
   ("relative_humidity", "70"), ("pressure_hpa", "1018.8"),
   ("current_wind_direction", "270"), ("current_wind_speed_kph", "14"),
   ("current_temperature_celsius", "100"),
   ("record_timestamp", "12/05/2024 10:05")]

/-- The fields `meteoclimatic_parse` produces from `payloadSentinel`:
the temperature slot is `None`, not the sentinel. -/
def fieldsSentinel : Fields :=
  { source_timestamp := some dtNow
    taken_timestamp := dtNow
    live := ⟨none, some 14, some 270, none, some 70, some (pyq 5094 5), none⟩
    daily := ⟨some (pyq 96 5), some (pyq 46 5), none, some 37, some 0⟩
    flagged := false }

/-- A live WeatherLink V2 response body with one sensor reporting
`ts`, `temp` (°F) and `hum`. -/
def liveBodyV2 : V2Json :=
  ⟨some [⟨[⟨[("ts", 1715500000), ("temp", 68), ("hum", 50)]⟩]⟩]⟩

/-- A daily WeatherLink V2 response body with one sensor of extrema. -/
def dailyBodyV2 : V2Json :=
  ⟨some [⟨[⟨[("temp_hi", 77), ("temp_lo", 50), ("wind_speed_hi", 10),
    ("rainfall_mm", 2)]⟩]⟩]⟩

/-- The live endpoint answering 200 with `liveBodyV2`. -/
def live200 : V2HttpResponse := ⟨200, liveBodyV2⟩

/-- A daily endpoint answering 404. -/
def daily404 : V2HttpResponse := ⟨404, ⟨none⟩⟩

/-- A daily endpoint answering 204. -/
def daily204 : V2HttpResponse := ⟨204, ⟨none⟩⟩

/-- Timestamp-conversion oracle for the V2 scenario. -/
def fromTsV2 : PyQ → PyDateTime := fun _ => dtNow

/-- The WeatherlinkV2 reader configuration: all three connection fields
required, no early-reading policy. -/
def cfgV2 : ReaderCfg := mkWeatherReader [.field1, .field2, .field3]

/-- A fully configured WeatherLink V2 station. -/
def stV2 : WeatherStation :=
  { id := "st-4", connection_type := "weatherlink_v2", field1 := some "id",
    field2 := some "key", field3 := some "secret",
    pressure_offset := some 0, data_timezone := "Etc/UTC",
    local_timezone := "Etc/UTC" }

/-- The V2 `parse` hook with the concrete oracles plugged in (a parsed
fields dict counts as present). -/
def parseV2fn : V2Raw → Except String (Option Fields) :=
  fun raw => (weatherlink_v2_parse fromTsV2 dtNow raw).map some

/-- The record `get_data` builds when the daily payload is present. -/
def recV2 : WeatherRecord :=
  { id := "rec-2", station_id := "st-4", source_timestamp := some dtNow,
    taken_timestamp := some dtNow, gatherer_thread_id := none,
    temperature := some 20, wind_speed := none, max_wind_speed :=
      some (pyq 80467 5000),
    wind_direction := none, rain := none, cumulative_rain := some 2,
    humidity := some 50, pressure := none, flagged := false,
    max_temperature := some 25, min_temperature := some 10,
    wind_gust := none, max_wind_gust := none }

end Gatherer

namespace Gatherer

theorem PyQ.le_def (a b : PyQ) : (a ≤ b) = (a.num * b.den ≤ b.num * a.den) :=
  rfl

theorem PyQ.lt_def (a b : PyQ) : (a < b) = (a.num * b.den < b.num * a.den) :=
  rfl

theorem PyQ.den_cast_pos (a : PyQ) : (0 : ℚ) < (a.den : ℚ) := by
  exact_mod_cast a.den_pos

theorem PyQ.le_iff_toRat (a b : PyQ) : a ≤ b ↔ a.toRat ≤ b.toRat := by
  rw [PyQ.toRat, PyQ.toRat, div_le_div_iff₀ a.den_cast_pos b.den_cast_pos,
    PyQ.le_def]
  exact_mod_cast Iff.rfl

theorem PyQ.lt_iff_toRat (a b : PyQ) : a < b ↔ a.toRat < b.toRat := by
  rw [PyQ.toRat, PyQ.toRat, div_lt_div_iff₀ a.den_cast_pos b.den_cast_pos,
    PyQ.lt_def]
  exact_mod_cast Iff.rfl

theorem PyQ.toRat_ofInt (n : ℤ) : (PyQ.ofInt n).toRat = (n : ℚ) := by
  simp [PyQ.toRat, PyQ.ofInt]

theorem PyQ.toRat_ofNat (n : ℕ) : (OfNat.ofNat n : PyQ).toRat = (n : ℚ) := by
  simpa using PyQ.toRat_ofInt n

theorem PyQ.toRat_neg (x : PyQ) : (-x).toRat = -x.toRat := by
  show ((-x.num : ℤ) : ℚ) / (x.den : ℚ) = -((x.num : ℚ) / (x.den : ℚ))
  push_cast
  ring

theorem PyQ.floor_eq (x : PyQ) : x.floor = ⌊x.toRat⌋ := by
  rw [PyQ.toRat, PyQ.floor, Rat.floor_intCast_div_natCast]

theorem PyQ.ceil_eq (x : PyQ) : x.ceil = ⌈x.toRat⌉ := by
  have h : ((-x.num : ℤ) : ℚ) / (x.den : ℚ) = -x.toRat := by
    rw [PyQ.toRat]; push_cast; ring
  rw [PyQ.ceil, ← Rat.floor_intCast_div_natCast (-x.num) x.den, h,
    Int.floor_neg, neg_neg]

theorem PyQ.num_nonneg_iff (x : PyQ) : 0 ≤ x.num ↔ (0 : ℚ) ≤ x.toRat := by
  rw [PyQ.toRat, le_div_iff₀ x.den_cast_pos]
  simp

theorem pyInt_of_nonneg {x : PyQ} (h : 0 ≤ x.num) : pyInt x = x.floor := by
  simp [pyInt, h]

theorem pyInt_of_neg {x : PyQ} (h : ¬ 0 ≤ x.num) : pyInt x = x.ceil := by
  simp [pyInt, h]

/-! ### C9, C10 theorems -/

/-- C9.  `smart_parse_float` parser laws: each NA token (`-`, `N/A`,
`NA`, `NaN`, and Python `None`) maps to `None`; the empty string maps to
`0.0`; `"1,5"` and `"1.5"` both parse to the rational 3/2 (comma or dot
as decimal separator); and every string containing both a comma and a
dot raises the two-separators `ValueError`. -/
theorem smart_parse_float_laws :
    smart_parse_float none = .ok none ∧
    smart_parse_float (some "-") = .ok none ∧
    smart_parse_float (some "N/A") = .ok none ∧
    smart_parse_float (some "NA") = .ok none ∧
    smart_parse_float (some "NaN") = .ok none ∧
    smart_parse_float (some "") = .ok (some 0) ∧
    smart_parse_float (some "1,5") = .ok (some (pyq 3 2)) ∧
    smart_parse_float (some "1.5") = .ok (some (pyq 3 2)) ∧
    (∀ s : String, s.toList.contains ',' = true → s.toList.contains '.' = true →
      smart_parse_float (some s) =
        .error "Invalid float format: both comma and dot as separators.") := by
  refine ⟨by decide, by decide, by decide, by decide, by decide, by decide,
    by decide, by decide, ?_⟩
  intro s h1 h2
  have d1 : s ≠ "-" := by rintro rfl; exact absurd h1 (by decide)
  have d2 : s ≠ "N/A" := by rintro rfl; exact absurd h1 (by decide)
  have d3 : s ≠ "NA" := by rintro rfl; exact absurd h1 (by decide)
  have d4 : s ≠ "NaN" := by rintro rfl; exact absurd h1 (by decide)
  have hna : is_na_value (some s) = false := by
    simp [is_na_value, d1, d2, d3, d4]
  have m1 : ',' ∈ s.data := by simpa using h1
  have m2 : '.' ∈ s.data := by simpa using h2
  have hnil : ¬ s.data = [] := by
    intro hl; rw [hl] at m1; simp at m1
  simp [smart_parse_float, hna, hnil, m1, m2]

/-- C9 witness: the universal conjunct applied at `"1,234.5"`. -/
theorem smart_parse_float_laws_witness :
    "1,234.5".toList.contains ',' = true ∧
    "1,234.5".toList.contains '.' = true ∧
    smart_parse_float (some "1,234.5") =
      .error "Invalid float format: both comma and dot as separators." :=
  ⟨by decide, by decide,
    smart_parse_float_laws.2.2.2.2.2.2.2.2 "1,234.5" (by decide) (by decide)⟩

/-- C10.  Numeric azimuths are truncated toward zero by `int(...)` before
the range check, so fractional azimuths lose their fractional part
(`22.5 ↦ 22`, every value in `[360, 361)` wraps to `0`, values at or
beyond `361` and at or below `-1` give `None`), while the cardinal
string abbreviations still produce the exact half-degree table values
(`"NNE" ↦ 22.5`). -/
theorem smart_azimuth_truncation :
    (∀ q : PyQ, pyInt q < 0 ∨ 360 < pyInt q →
      smart_azimuth (.vNum q) = none) ∧
    (∀ q : PyQ, pyInt q = 360 → smart_azimuth (.vNum q) = some 0) ∧
    (∀ q : PyQ, 0 ≤ pyInt q → pyInt q < 360 →
      smart_azimuth (.vNum q) = some (PyQ.ofInt (pyInt q))) ∧
    (∀ q : PyQ, (0 : PyQ) ≤ q → q < (360 : PyQ) →
      smart_azimuth (.vNum q) = some (PyQ.ofInt q.floor)) ∧
    (∀ q : PyQ, (360 : PyQ) ≤ q → q < (361 : PyQ) →
      smart_azimuth (.vNum q) = some 0) ∧
    (∀ q : PyQ, q ≤ (-1 : PyQ) → smart_azimuth (.vNum q) = none) ∧
    smart_azimuth (.vNum (pyq 45 2)) = some (PyQ.ofInt 22) ∧
    smart_azimuth (.vStr "NNE") = some (pyq 45 2) ∧
    smart_azimuth (.vStr "NNW") = some (pyq 675 2) := by
  have hnone : ∀ q : PyQ, pyInt q < 0 ∨ 360 < pyInt q →
      smart_azimuth (.vNum q) = none := by
    intro q h
    simp only [smart_azimuth, azimuth_as_float]
    rw [if_pos h]
  have h360 : ∀ q : PyQ, pyInt q = 360 → smart_azimuth (.vNum q) = some 0 := by
    intro q h
    simp [smart_azimuth, azimuth_as_float, h]
  have hmain : ∀ q : PyQ, 0 ≤ pyInt q → pyInt q < 360 →
      smart_azimuth (.vNum q) = some (PyQ.ofInt (pyInt q)) := by
    intro q h0 h1
    have hno : ¬ (pyInt q < 0 ∨ 360 < pyInt q) := by omega
    have hne : ¬ (pyInt q = 360) := by omega
    simp only [smart_azimuth, azimuth_as_float]
    rw [if_neg hno, if_neg hne]
  refine ⟨hnone, h360, hmain, ?_, ?_, ?_, by decide, by decide, by decide⟩
  · intro q h0 h1
    have hq0 : (0 : ℚ) ≤ q.toRat := by
      have h := (PyQ.le_iff_toRat 0 q).mp h0
      rw [PyQ.toRat_ofNat] at h
      exact_mod_cast h
    have hq1 : q.toRat < (360 : ℚ) := by
      have h := (PyQ.lt_iff_toRat q 360).mp h1
      rw [PyQ.toRat_ofNat] at h
      exact_mod_cast h
    have hnum : 0 ≤ q.num := (PyQ.num_nonneg_iff q).mpr hq0
    have hfl : pyInt q = q.floor := pyInt_of_nonneg hnum
    have hge : 0 ≤ q.floor := by
      rw [PyQ.floor_eq]; exact Int.floor_nonneg.mpr hq0
    have hlt : q.floor < 360 := by
      rw [PyQ.floor_eq]
      exact Int.floor_lt.mpr (by exact_mod_cast hq1)
    rw [← hfl] at hge hlt
    rw [hmain q hge hlt, hfl]
  · intro q h0 h1
    have hq0 : (360 : ℚ) ≤ q.toRat := by
      have h := (PyQ.le_iff_toRat 360 q).mp h0
      rw [PyQ.toRat_ofNat] at h
      exact_mod_cast h
    have hq1 : q.toRat < (361 : ℚ) := by
      have h := (PyQ.lt_iff_toRat q 361).mp h1
      rw [PyQ.toRat_ofNat] at h
      exact_mod_cast h
    have hnum : 0 ≤ q.num := (PyQ.num_nonneg_iff q).mpr (le_trans (by norm_num) hq0)
    have hge : (360 : ℤ) ≤ q.floor := by
      rw [PyQ.floor_eq]; exact Int.le_floor.mpr (by exact_mod_cast hq0)
    have hlt : q.floor < 361 := by
      rw [PyQ.floor_eq]; exact Int.floor_lt.mpr (by exact_mod_cast hq1)
    exact h360 q (by rw [pyInt_of_nonneg hnum]; omega)
  · intro q h
    have hq : q.toRat ≤ ((-1 : ℤ) : ℚ) := by
      have h' := (PyQ.le_iff_toRat q (-1)).mp h
      rw [PyQ.toRat_neg, PyQ.toRat_ofNat] at h'
      push_cast
      exact_mod_cast h'
    have hnum : ¬ 0 ≤ q.num := by
      intro hc
      have := (PyQ.num_nonneg_iff q).mp hc
      have : (0 : ℚ) ≤ ((-1 : ℤ) : ℚ) := le_trans this hq
      norm_num at this
    have hc : q.ceil ≤ -1 := by
      rw [PyQ.ceil_eq]
      exact Int.ceil_le.mpr hq
    exact hnone q (Or.inl (by rw [pyInt_of_neg hnum]; omega))

/-- C10 witness: the `[360, 361)` wrap conjunct applied at `360.5`, and
the nonnegative-truncation conjunct applied at `22.5`. -/
theorem smart_azimuth_truncation_witness :
    ((360 : PyQ) ≤ pyq 721 2 ∧ pyq 721 2 < (361 : PyQ) ∧
      smart_azimuth (.vNum (pyq 721 2)) = some 0) ∧
    ((0 : PyQ) ≤ pyq 45 2 ∧ pyq 45 2 < (360 : PyQ) ∧
      smart_azimuth (.vNum (pyq 45 2)) = some (PyQ.ofInt (pyq 45 2).floor)) :=
  ⟨⟨by decide, by decide,
      smart_azimuth_truncation.2.2.2.2.1 (pyq 721 2) (by decide) (by decide)⟩,
   ⟨by decide, by decide,
      smart_azimuth_truncation.2.2.2.1 (pyq 45 2) (by decide) (by decide)⟩⟩

/-! ### Validator and corrector lemmas -/

theorem checkRange_fst (lo hi : PyQ) (v : Option PyQ) (f : Bool) :
    (checkRange lo hi v f).1 = specRangeFilter lo hi v := by
  cases v with
  | none => simp [checkRange, specRangeFilter]
  | some x =>
    by_cases hc : lo ≤ x ∧ x ≤ hi <;> simp [checkRange, specRangeFilter, hc]

theorem checkRange_snd (lo hi : PyQ) (v : Option PyQ) (f : Bool) :
    (checkRange lo hi v f).2 = (f || specOutOfRange lo hi v) := by
  cases v with
  | none => simp [checkRange, specOutOfRange]
  | some x =>
    by_cases hc : lo ≤ x ∧ x ≤ hi <;> simp [checkRange, specOutOfRange, hc]

theorem checkPair_eq (a b : Option PyQ) (f : Bool) :
    checkPair a b f = (f || specPairViolation a b) := by
  cases a with
  | none => cases b <;> simp [checkPair, specPairViolation]
  | some x =>
    cases b with
    | none => simp [checkPair, specPairViolation]
    | some y =>
      by_cases hc : x ≤ y <;> simp [checkPair, specPairViolation, hc]

theorem validate_consistency_flagged (s : WeatherRecord) :
    (validate_consistency s).flagged =
      (s.flagged ||
        specPairViolation s.min_temperature s.temperature ||
        specPairViolation s.temperature s.max_temperature ||
        specPairViolation s.min_temperature s.max_temperature ||
        specPairViolation s.wind_speed s.max_wind_speed ||
        specPairViolation s.wind_gust s.max_wind_gust ||
        specPairViolation s.wind_speed s.wind_gust) := by
  simp [validate_consistency, checkPair_eq, Bool.or_assoc]

theorem specPairLE_of_violation_false {a b : Option PyQ}
    (h : specPairViolation a b = false) : specPairLE a b := by
  intro x y hx hy
  subst hx; subst hy
  by_contra hc
  simp [specPairViolation, hc] at h

/-! ### C5, C6, C7 theorems -/

/-- C5.  The range pass of `Validator.validate` blanks exactly the
non-null fields outside their inclusive safe range and sets the flag
exactly when some field was out of range, keeping every in-range value;
the consistency pass does not change any value, so the fields of the
full `validate` agree; and the worked example
(`temperature=-100, humidity=150, pressure=900`) comes out
`flagged=true, temperature=None, humidity=None, pressure=900`. -/
theorem validator_range_pass (r : WeatherRecord) :
    ((validate_safe_ranges r).temperature =
      specRangeFilter (-39) 50 r.temperature) ∧
    ((validate_safe_ranges r).wind_speed =
      specRangeFilter 0 500 r.wind_speed) ∧
    ((validate_safe_ranges r).humidity = specRangeFilter 0 100 r.humidity) ∧
    ((validate_safe_ranges r).pressure =
      specRangeFilter 800 1100 r.pressure) ∧
    ((validate_safe_ranges r).wind_direction =
      specRangeFilter 0 360 r.wind_direction) ∧
    ((validate_safe_ranges r).rain = specRangeFilter 0 500 r.rain) ∧
    ((validate_safe_ranges r).cumulative_rain =
      specRangeFilter 0 15000 r.cumulative_rain) ∧
    ((validate_safe_ranges r).max_temperature =
      specRangeFilter (-39) 50 r.max_temperature) ∧
    ((validate_safe_ranges r).min_temperature =
      specRangeFilter (-39) 50 r.min_temperature) ∧
    ((validate_safe_ranges r).max_wind_speed =
      specRangeFilter 0 500 r.max_wind_speed) ∧
    ((validate_safe_ranges r).wind_gust =
      specRangeFilter 0 500 r.wind_gust) ∧
    ((validate_safe_ranges r).max_wind_gust =
      specRangeFilter 0 500 r.max_wind_gust) ∧
    ((validate_safe_ranges r).flagged =
      (r.flagged ||
        specOutOfRange (-39) 50 r.temperature ||
        specOutOfRange 0 500 r.wind_speed ||
        specOutOfRange 0 100 r.humidity ||
        specOutOfRange 800 1100 r.pressure ||
        specOutOfRange 0 360 r.wind_direction ||
        specOutOfRange 0 500 r.rain ||
        specOutOfRange 0 15000 r.cumulative_rain ||
        specOutOfRange (-39) 50 r.max_temperature ||
        specOutOfRange (-39) 50 r.min_temperature ||
        specOutOfRange 0 500 r.max_wind_speed ||
        specOutOfRange 0 500 r.wind_gust ||
        specOutOfRange 0 500 r.max_wind_gust)) ∧
    ((validate r).temperature = (validate_safe_ranges r).temperature) ∧
    ((validate r).wind_speed = (validate_safe_ranges r).wind_speed) ∧
    ((validate r).humidity = (validate_safe_ranges r).humidity) ∧
    ((validate r).pressure = (validate_safe_ranges r).pressure) ∧
    ((validate r).wind_direction = (validate_safe_ranges r).wind_direction) ∧
    ((validate r).rain = (validate_safe_ranges r).rain) ∧
    ((validate r).cumulative_rain = (validate_safe_ranges r).cumulative_rain) ∧
    ((validate r).max_temperature = (validate_safe_ranges r).max_temperature) ∧
    ((validate r).min_temperature = (validate_safe_ranges r).min_temperature) ∧
    ((validate r).max_wind_speed = (validate_safe_ranges r).max_wind_speed) ∧
    ((validate r).wind_gust = (validate_safe_ranges r).wind_gust) ∧
    ((validate r).max_wind_gust = (validate_safe_ranges r).max_wind_gust) ∧
    (validate exRangeRecord).flagged = true ∧
    (validate exRangeRecord).temperature = none ∧
    (validate exRangeRecord).humidity = none ∧
    (validate exRangeRecord).pressure = some 900 := by
  refine ⟨?_, ?_, ?_, ?_, ?_, ?_, ?_, ?_, ?_, ?_, ?_, ?_, ?_,
    rfl, rfl, rfl, rfl, rfl, rfl, rfl, rfl, rfl, rfl, rfl, rfl,
    by decide, by decide, by decide, by decide⟩ <;>
  simp [validate_safe_ranges, checkRange_fst, checkRange_snd, Bool.or_assoc]

/-- C6.  The consistency pass of `Validator.validate` retains every
value; whenever one of the six ordered pairs has both sides present with
the left strictly greater than the right, the validated record is
flagged; consequently a validated record with `flagged = false`
satisfies all six pairwise predicates. -/
theorem validator_consistency_pass (r : WeatherRecord) :
    ((validate r).min_temperature = (validate_safe_ranges r).min_temperature) ∧
    ((validate r).temperature = (validate_safe_ranges r).temperature) ∧
    ((validate r).max_temperature = (validate_safe_ranges r).max_temperature) ∧
    ((validate r).wind_speed = (validate_safe_ranges r).wind_speed) ∧
    ((validate r).max_wind_speed = (validate_safe_ranges r).max_wind_speed) ∧
    ((validate r).wind_gust = (validate_safe_ranges r).wind_gust) ∧
    ((validate r).max_wind_gust = (validate_safe_ranges r).max_wind_gust) ∧
    (∀ x y, (validate r).min_temperature = some x →
      (validate r).temperature = some y → ¬ x ≤ y →
      (validate r).flagged = true) ∧
    (∀ x y, (validate r).temperature = some x →
      (validate r).max_temperature = some y → ¬ x ≤ y →
      (validate r).flagged = true) ∧
    (∀ x y, (validate r).min_temperature = some x →
      (validate r).max_temperature = some y → ¬ x ≤ y →
      (validate r).flagged = true) ∧
    (∀ x y, (validate r).wind_speed = some x →
      (validate r).max_wind_speed = some y → ¬ x ≤ y →
      (validate r).flagged = true) ∧
    (∀ x y, (validate r).wind_gust = some x →
      (validate r).max_wind_gust = some y → ¬ x ≤ y →
      (validate r).flagged = true) ∧
    (∀ x y, (validate r).wind_speed = some x →
      (validate r).wind_gust = some y → ¬ x ≤ y →
      (validate r).flagged = true) ∧
    ((validate r).flagged = false →
      specPairLE (validate r).min_temperature (validate r).temperature ∧
      specPairLE (validate r).temperature (validate r).max_temperature ∧
      specPairLE (validate r).min_temperature (validate r).max_temperature ∧
      specPairLE (validate r).wind_speed (validate r).max_wind_speed ∧
      specPairLE (validate r).wind_gust (validate r).max_wind_gust ∧
      specPairLE (validate r).wind_speed (validate r).wind_gust) := by
  have hfl := validate_consistency_flagged (validate_safe_ranges r)
  refine ⟨rfl, rfl, rfl, rfl, rfl, rfl, rfl, ?_, ?_, ?_, ?_, ?_, ?_, ?_⟩
  · intro x y hx hy hxy
    show (validate_consistency (validate_safe_ranges r)).flagged = true
    rw [hfl]
    have : specPairViolation (validate_safe_ranges r).min_temperature
        (validate_safe_ranges r).temperature = true := by
      rw [show (validate_safe_ranges r).min_temperature = some x from hx,
        show (validate_safe_ranges r).temperature = some y from hy]
      simp [specPairViolation, hxy]
    simp [this]
  · intro x y hx hy hxy
    show (validate_consistency (validate_safe_ranges r)).flagged = true
    rw [hfl]
    have : specPairViolation (validate_safe_ranges r).temperature
        (validate_safe_ranges r).max_temperature = true := by
      rw [show (validate_safe_ranges r).temperature = some x from hx,
        show (validate_safe_ranges r).max_temperature = some y from hy]
      simp [specPairViolation, hxy]
    simp [this]
  · intro x y hx hy hxy
    show (validate_consistency (validate_safe_ranges r)).flagged = true
    rw [hfl]
    have : specPairViolation (validate_safe_ranges r).min_temperature
        (validate_safe_ranges r).max_temperature = true := by
      rw [show (validate_safe_ranges r).min_temperature = some x from hx,
        show (validate_safe_ranges r).max_temperature = some y from hy]
      simp [specPairViolation, hxy]
    simp [this]
  · intro x y hx hy hxy
    show (validate_consistency (validate_safe_ranges r)).flagged = true
    rw [hfl]
    have : specPairViolation (validate_safe_ranges r).wind_speed
        (validate_safe_ranges r).max_wind_speed = true := by
      rw [show (validate_safe_ranges r).wind_speed = some x from hx,
        show (validate_safe_ranges r).max_wind_speed = some y from hy]
      simp [specPairViolation, hxy]
    simp [this]
  · intro x y hx hy hxy
    show (validate_consistency (validate_safe_ranges r)).flagged = true
    rw [hfl]
    have : specPairViolation (validate_safe_ranges r).wind_gust
        (validate_safe_ranges r).max_wind_gust = true := by
      rw [show (validate_safe_ranges r).wind_gust = some x from hx,
        show (validate_safe_ranges r).max_wind_gust = some y from hy]
      simp [specPairViolation, hxy]
    simp [this]
  · intro x y hx hy hxy
    show (validate_consistency (validate_safe_ranges r)).flagged = true
    rw [hfl]
    have : specPairViolation (validate_safe_ranges r).wind_speed
        (validate_safe_ranges r).wind_gust = true := by
      rw [show (validate_safe_ranges r).wind_speed = some x from hx,
        show (validate_safe_ranges r).wind_gust = some y from hy]
      simp [specPairViolation, hxy]
    simp [this]
  · intro hfalse
    have h0 : (validate_consistency (validate_safe_ranges r)).flagged = false :=
      hfalse
    rw [hfl] at h0
    simp only [Bool.or_eq_false_iff] at h0
    exact ⟨specPairLE_of_violation_false h0.1.1.1.1.1.2,
      specPairLE_of_violation_false h0.1.1.1.1.2,
      specPairLE_of_violation_false h0.1.1.1.2,
      specPairLE_of_violation_false h0.1.1.2,
      specPairLE_of_violation_false h0.1.2,
      specPairLE_of_violation_false h0.2⟩

/-- C6 witness: the worked example
`min_temperature=30, temperature=20, max_temperature=10` is flagged with
all values preserved. -/
theorem validator_consistency_pass_witness :
    (validate exConsistencyRecord).min_temperature = some 30 ∧
    (validate exConsistencyRecord).temperature = some 20 ∧
    (validate exConsistencyRecord).max_temperature = some 10 ∧
    ¬ ((30 : PyQ) ≤ 20) ∧
    (validate exConsistencyRecord).flagged = true :=
  ⟨by decide, by decide, by decide, by decide,
    (validator_consistency_pass exConsistencyRecord).2.2.2.2.2.2.2.1 30 20
      (by decide) (by decide) (by decide)⟩

/-- C7's claim that `Corrector.correct` rounds all twelve numeric fields
is false at this input: `wind_direction = 123.456` survives `correct`
unrounded, although rounding it to one decimal would give 123.5. -/
theorem corrector_wind_direction_unrounded :
    (correct exWindDirRecord none 1).wind_direction = some (pyq 15432 125) ∧
    pyRound (pyq 15432 125) 1 = pyq 247 2 ∧
    pyq 15432 125 ≠ pyq 247 2 := by
  decide

/-- C7 (amended).  `Corrector.correct` adds the offset to `pressure`
exactly when both are non-null, then rounds the eleven fields of
`numerical_fields` to the requested decimals; `wind_direction` is not in
that list and is left untouched, and neither `flagged` nor any
non-numeric field changes. -/
theorem corrector_correct_spec (r : WeatherRecord) (offset : Option PyQ)
    (d : ℕ) :
    ((correct r offset d).flagged = r.flagged) ∧
    ((correct r offset d).id = r.id) ∧
    ((correct r offset d).station_id = r.station_id) ∧
    ((correct r offset d).source_timestamp = r.source_timestamp) ∧
    ((correct r offset d).taken_timestamp = r.taken_timestamp) ∧
    ((correct r offset d).gatherer_thread_id = r.gatherer_thread_id) ∧
    ((correct r offset d).wind_direction = r.wind_direction) ∧
    ((correct r offset d).temperature = r.temperature.map (pyRound · d)) ∧
    ((correct r offset d).wind_speed = r.wind_speed.map (pyRound · d)) ∧
    ((correct r offset d).max_wind_speed =
      r.max_wind_speed.map (pyRound · d)) ∧
    ((correct r offset d).humidity = r.humidity.map (pyRound · d)) ∧
    ((correct r offset d).rain = r.rain.map (pyRound · d)) ∧
    ((correct r offset d).cumulative_rain =
      r.cumulative_rain.map (pyRound · d)) ∧
    ((correct r offset d).max_temperature =
      r.max_temperature.map (pyRound · d)) ∧
    ((correct r offset d).min_temperature =
      r.min_temperature.map (pyRound · d)) ∧
    ((correct r offset d).wind_gust = r.wind_gust.map (pyRound · d)) ∧
    ((correct r offset d).max_wind_gust =
      r.max_wind_gust.map (pyRound · d)) ∧
    ((correct r offset d).pressure =
      (match r.pressure, offset with
        | some p, some o => some (p + o)
        | _, _ => r.pressure).map (pyRound · d)) := by
  rcases hp : r.pressure with _ | p <;> rcases ho : offset with _ | o <;>
    simp [correct, apply_pressure_offset, apply_rounding, hp, ho]

/-! ### C1 theorem -/

/-- C1.  For a station whose fetched-and-parsed fields carry a
`source_timestamp` that is absent, timezone-naive, strictly after
`now_utc`, or older than `max_reading_age` (1800 s by construction),
`WeatherReader.read` returns the corresponding typed failure
(`MissingTimestamp` for the two absent/naive branches, `FutureTimestamp`,
`StaleTimestamp`) and produces no record. -/
theorem read_timestamp_policy {ρ : Type} (cfg : ReaderCfg) (nowUtc : ℤ)
    (freshId : String) (st : WeatherStation) (raw : ρ)
    (parse : ρ → Option Fields) (fields : Fields)
    (hage : cfg.max_reading_age_seconds = 1800)
    (hconn : validate_connection_fields cfg st = true)
    (hparse : parse raw = some fields) :
    (fields.source_timestamp = none →
      WeatherReader.read cfg nowUtc freshId st (some raw) parse =
        .invalidDate .dateIsNone) ∧
    (∀ d, fields.source_timestamp = some d → d.aware = false →
      WeatherReader.read cfg nowUtc freshId st (some raw) parse =
        .invalidDate .dateHasNoTimezone) ∧
    (∀ d, fields.source_timestamp = some d → d.aware = true →
      nowUtc < d.utcSeconds →
      WeatherReader.read cfg nowUtc freshId st (some raw) parse =
        .invalidDate .dateInFuture) ∧
    (∀ d, fields.source_timestamp = some d → d.aware = true →
      1800 < nowUtc - d.utcSeconds →
      WeatherReader.read cfg nowUtc freshId st (some raw) parse =
        .invalidDate .dateTooOld) ∧
    (DateFailure.dateIsNone.kind = .missingTimestamp ∧
      DateFailure.dateHasNoTimezone.kind = .missingTimestamp ∧
      DateFailure.dateInFuture.kind = .futureTimestamp ∧
      DateFailure.dateTooOld.kind = .staleTimestamp) ∧
    (∀ f rec,
      WeatherReader.read cfg nowUtc freshId st (some raw) parse =
        .invalidDate f →
      WeatherReader.read cfg nowUtc freshId st (some raw) parse ≠
        .success rec) := by
  refine ⟨?_, ?_, ?_, ?_, ⟨rfl, rfl, rfl, rfl⟩, ?_⟩
  · intro h
    simp [WeatherReader.read, hconn, hparse, validate_date_age, h]
  · intro d hd haw
    simp [WeatherReader.read, hconn, hparse, validate_date_age, hd, haw]
  · intro d hd haw hfut
    simp [WeatherReader.read, hconn, hparse, validate_date_age, hd, haw, hfut]
  · intro d hd haw hstale
    have hnf : ¬ (nowUtc < d.utcSeconds) := by omega
    have hold : cfg.max_reading_age_seconds < nowUtc - d.utcSeconds := by
      omega
    simp [WeatherReader.read, hconn, hparse, validate_date_age, hd, haw,
      hnf, hold]
  · intro f rec h
    rw [h]
    simp

/-- C1 witness: the 1800-second default and a `source_timestamp`
2100 seconds (35 minutes) before now yield `StaleTimestamp` and no
record. -/
theorem read_timestamp_policy_witness :
    (mkWeatherReader []).max_reading_age_seconds = 1800 ∧
    validate_connection_fields (mkWeatherReader []) stPlain = true ∧
    staleParse () = some staleFields ∧
    staleFields.source_timestamp = some dtStale ∧
    dtStale.aware = true ∧
    1800 < (100000 : ℤ) - dtStale.utcSeconds ∧
    WeatherReader.read (mkWeatherReader []) 100000 "rec-1" stPlain
      (some ()) staleParse = .invalidDate .dateTooOld ∧
    DateFailure.dateTooOld.kind = .staleTimestamp :=
  ⟨rfl, by decide, rfl, rfl, rfl, by decide,
    (read_timestamp_policy (mkWeatherReader []) 100000 "rec-1" stPlain ()
        staleParse staleFields rfl (by decide) rfl).2.2.2.1 dtStale rfl rfl
      (by decide),
    rfl⟩

/-! ### C2 theorems -/

/-- C2's claim that every error entry increments the incident counter is
false at this input: an invalid-timezone station yields an error entry
while `Database.increment_incident_count` is never invoked. -/
theorem process_station_error_without_increment :
    (process_station false "run-1" readersEmpty stBadTz).1.isError = true ∧
    (process_station false "run-1" readersEmpty stBadTz).2.incident_increments
      = 0 := by
  decide

/-- C2 (amended).  In `Gatherer.process_station`, no error entry ever
comes with a persisted record, dry-run never touches the database, and
with `dry_run = false` the incident counter is incremented exactly once
precisely when the error came from a raised exception (the reader /
postprocessor / persistence `try` block); the invalid-timezone,
unknown-connection-type and no-data errors return without incrementing,
and the success path persists exactly the corrected-and-validated
record. -/
theorem process_station_incident_policy (run_id : String)
    (readers : String →
      Option (WeatherStation → Except String (Option WeatherRecord)))
    (st : WeatherStation) :
    (∀ dry_run, (process_station dry_run run_id readers st).1.isError = true →
      (process_station dry_run run_id readers st).2.saved_records = []) ∧
    ((process_station true run_id readers st).2.incident_increments = 0 ∧
      (process_station true run_id readers st).2.saved_records = []) ∧
    (validate_station_timezones st = false →
      process_station false run_id readers st =
        (.error ("Invalid timezone for station " ++ st.id), ⟨0, []⟩)) ∧
    (validate_station_timezones st = true →
      readers st.connection_type = none →
      process_station false run_id readers st =
        (.error ("Invalid connection type for station " ++ st.id), ⟨0, []⟩)) ∧
    (∀ rd e, validate_station_timezones st = true →
      readers st.connection_type = some rd → rd st = .error e →
      process_station false run_id readers st = (.error e, ⟨1, []⟩)) ∧
    (∀ rd, validate_station_timezones st = true →
      readers st.connection_type = some rd → rd st = .ok none →
      process_station false run_id readers st =
        (.error ("No data retrieved for station " ++ st.id), ⟨0, []⟩)) ∧
    (∀ rd rec, validate_station_timezones st = true →
      readers st.connection_type = some rd → rd st = .ok (some rec) →
      process_station false run_id readers st =
        (.success, ⟨0, [process_record run_id rec st]⟩)) := by
  refine ⟨?_, ?_, ?_, ?_, ?_, ?_, ?_⟩
  · intro dry_run herr
    by_cases h1 : validate_station_timezones st
    · rcases h2 : readers st.connection_type with _ | rd
      · simp [process_station, h1, h2]
      · rcases h3 : rd st with e | r
        · simp [process_station, h1, h2, h3]
        · rcases r with _ | rec
          · simp [process_station, h1, h2, h3]
          · cases dry_run <;>
              simp [process_station, h1, h2, h3, StationResult.isError] at herr
    · simp [process_station, h1]
  · by_cases h1 : validate_station_timezones st
    · rcases h2 : readers st.connection_type with _ | rd
      · simp [process_station, h1, h2]
      · rcases h3 : rd st with e | r
        · simp [process_station, h1, h2, h3]
        · rcases r with _ | rec <;> simp [process_station, h1, h2, h3]
    · simp [process_station, h1]
  · intro h1
    simp [process_station, h1]
  · intro h1 h2
    simp [process_station, h1, h2]
  · intro rd e h1 h2 h3
    simp [process_station, h1, h2, h3]
  · intro rd h1 h2 h3
    simp [process_station, h1, h2, h3]
  · intro rd rec h1 h2 h3
    simp [process_station, h1, h2, h3]

/-- C2 witness: a reader exception on a valid station increments the
incident counter exactly once and persists nothing. -/
theorem process_station_incident_policy_witness :
    validate_station_timezones stPlain = true ∧
    readersBoom stPlain.connection_type = some readerBoom ∧
    readerBoom stPlain = .error "boom" ∧
    process_station false "run-1" readersBoom stPlain =
      (.error "boom", ⟨1, []⟩) :=
  ⟨by decide, rfl, rfl,
    (process_station_incident_policy "run-1" readersBoom
        stPlain).2.2.2.2.1 readerBoom "boom" (by decide) rfl rfl⟩

/-! ### Chunking lemmas and the C8 theorem -/

theorem flatten_map_append_perm {ι α : Type} (xs : List ι) (f g : ι → List α) :
    ((xs.map fun i => f i ++ g i).flatten).Perm
      ((xs.map f).flatten ++ (xs.map g).flatten) := by
  induction xs with
  | nil => simp
  | cons a xs ih =>
    simp only [List.map_cons, List.flatten_cons]
    have h1 : (g a ++ ((xs.map f).flatten ++ (xs.map g).flatten)).Perm
        ((xs.map f).flatten ++ (g a ++ (xs.map g).flatten)) := by
      have ha : g a ++ ((xs.map f).flatten ++ (xs.map g).flatten) =
          (g a ++ (xs.map f).flatten) ++ (xs.map g).flatten :=
        (List.append_assoc _ _ _).symm
      have hb : ((xs.map f).flatten ++ g a) ++ (xs.map g).flatten =
          (xs.map f).flatten ++ (g a ++ (xs.map g).flatten) :=
        List.append_assoc _ _ _
      rw [ha, ← hb]
      exact List.perm_append_comm.append_right _
    have h2 : ((f a ++ g a) ++
        ((xs.map fun i => f i ++ g i)).flatten).Perm
        ((f a ++ g a) ++ ((xs.map f).flatten ++ (xs.map g).flatten)) :=
      ih.append_left _
    refine h2.trans ?_
    have h3 : (f a ++ g a) ++ ((xs.map f).flatten ++ (xs.map g).flatten) =
        f a ++ (g a ++ ((xs.map f).flatten ++ (xs.map g).flatten)) :=
      List.append_assoc _ _ _
    have h4 : (f a ++ (xs.map f).flatten) ++ (g a ++ (xs.map g).flatten) =
        f a ++ ((xs.map f).flatten ++ (g a ++ (xs.map g).flatten)) :=
      List.append_assoc _ _ _
    rw [h3, h4]
    exact h1.append_left _

theorem base_chunks_flatten {α : Type} (l : List α) (cs k : ℕ) :
    ((List.range k).map fun i => (l.drop (i * cs)).take cs).flatten =
      l.take (k * cs) := by
  induction k with
  | zero => simp
  | succ k ih =>
    rw [List.range_succ, List.map_append, List.flatten_append, ih]
    simp only [List.map_cons, List.map_nil, List.flatten_cons,
      List.flatten_nil, List.append_nil]
    rw [← List.take_add]
    congr 1
    ring

theorem ite_chunk_flatten {α : Type} (r k : ℕ) (f : ℕ → List α) :
    ((List.range k).map fun i => if i < r then f i else []).flatten =
      ((List.range (min r k)).map f).flatten := by
  induction k with
  | zero => simp
  | succ k ih =>
    rw [List.range_succ, List.map_append, List.flatten_append, ih]
    by_cases h : k < r
    · have hmin1 : min r k = k := by omega
      have hmin2 : min r (k + 1) = k + 1 := by omega
      rw [hmin1, hmin2, List.range_succ, List.map_append, List.flatten_append]
      simp [h]
    · have hmin1 : min r k = r := by omega
      have hmin2 : min r (k + 1) = r := by omega
      rw [hmin1, hmin2]
      simp [h]

theorem tail_singles_flatten {α : Type} (t : List α) :
    ((List.range t.length).map fun i =>
      (t.drop (t.length - 1 - i)).take 1).flatten = t.reverse := by
  induction t using List.reverseRecOn with
  | nil => simp
  | append_singleton t' x ih =>
    have hlen : (t' ++ [x]).length = t'.length + 1 := by simp
    rw [hlen, List.range_succ_eq_map]
    simp only [List.map_cons, List.map_map, List.flatten_cons]
    have hhead : ((t' ++ [x]).drop (t'.length + 1 - 1 - 0)).take 1 = [x] := by
      simp [List.drop_left]
    have hmap : ∀ i ∈ List.range t'.length,
        (((fun i => ((t' ++ [x]).drop (t'.length + 1 - 1 - i)).take 1) ∘
          Nat.succ) i) = (t'.drop (t'.length - 1 - i)).take 1 := by
      intro i hi
      have hi' : i < t'.length := List.mem_range.mp hi
      have harith : t'.length + 1 - 1 - (i + 1) = t'.length - 1 - i := by omega
      simp only [Function.comp]
      rw [show Nat.succ i = i + 1 from rfl, harith]
      have hle : t'.length - 1 - i ≤ t'.length := by omega
      rw [List.drop_append_of_le_length hle]
      have hlen1 : 1 ≤ (t'.drop (t'.length - 1 - i)).length := by
        rw [List.length_drop]; omega
      rw [List.take_append_of_le_length hlen1]
    rw [List.map_congr_left hmap, hhead, ih, List.reverse_append]
    simp

theorem split_into_chunks_flatten_perm {α : Type} (k : ℕ) (hk : 1 ≤ k)
    (l : List α) : ((split_into_chunks k l).flatten).Perm l := by
  simp only [split_into_chunks]
  refine (flatten_map_append_perm _ _ _).trans ?_
  rw [base_chunks_flatten, ite_chunk_flatten]
  have hmod : l.length % k < k := Nat.mod_lt _ hk
  have hmin : min (l.length % k) k = l.length % k := by omega
  rw [hmin]
  have hr_le : l.length % k ≤ l.length := Nat.mod_le _ _
  have hkcs : k * (l.length / k) = l.length - l.length % k := by
    have := Nat.div_add_mod l.length k
    omega
  have htail : ∀ i ∈ List.range (l.length % k),
      (l.drop (l.length - 1 - i)).take 1 =
      ((l.drop (l.length - l.length % k)).drop (l.length % k - 1 - i)).take 1
      := by
    intro i hi
    have hi' : i < l.length % k := List.mem_range.mp hi
    rw [List.drop_drop]
    congr 2
    omega
  rw [List.map_congr_left htail]
  have hlen : (l.drop (l.length - l.length % k)).length = l.length % k := by
    rw [List.length_drop]; omega
  have hsingles := tail_singles_flatten (l.drop (l.length - l.length % k))
  rw [hlen] at hsingles
  rw [hsingles, hkcs]
  refine List.Perm.trans (List.Perm.append_left _ (List.reverse_perm _)) ?_
  rw [List.take_append_drop]

/-- C8.  For a duplicate-free station list of size at least 30 and a
worker count `1 ≤ k ≤ n`, the chunks `Gatherer._split_into_chunks`
produces (base contiguous slices of `n / k` stations, plus the `n % k`
tail stations appended one each to the first chunks) form an exact
partition of the input, and the merged per-chunk result map of
`multithread_processing` is, as a multiset of `(station id, result)`
entries, the single-threaded result map built by the same per-station
function. -/
theorem multithread_matches_sequential {α β κ : Type} (key : α → κ)
    (f : α → β) (stations : List α) (k : ℕ)
    (_hn : 30 ≤ stations.length) (hk : 1 ≤ k) (_hkn : k ≤ stations.length)
    (_hkeys : (stations.map key).Nodup) :
    ((split_into_chunks k stations).flatten).Perm stations ∧
    (multithread_processing k key f stations).Perm
      (singlethread_processing key f stations) := by
  have hperm := split_into_chunks_flatten_perm k hk stations
  refine ⟨hperm, ?_⟩
  unfold multithread_processing singlethread_processing chunk_results
  rw [← List.map_flatten]
  exact hperm.map _

/-- C8 witness: thirty distinct stations, four workers. -/
theorem multithread_matches_sequential_witness :
    30 ≤ (List.range 30).length ∧ 1 ≤ 4 ∧ 4 ≤ (List.range 30).length ∧
    ((List.range 30).map (fun n => n)).Nodup ∧
    ((split_into_chunks 4 (List.range 30)).flatten).Perm (List.range 30) ∧
    (multithread_processing 4 (fun n => n) (fun n => n * n)
      (List.range 30)).Perm
      (singlethread_processing (fun n => n) (fun n => n * n)
        (List.range 30)) := by
  have h := multithread_matches_sequential (fun n : ℕ => n) (fun n => n * n)
    (List.range 30) 4 (by decide) (by decide) (by decide) (by decide)
  exact ⟨by decide, by decide, by decide, by decide, h.1, h.2⟩

/-! ### C3 theorems -/

/-- C3's claim that the Meteoclimatic adapter records the sentinel `100`
verbatim is false at this payload: `TMP=100` parses to the float 100,
yet the produced fields carry `None` in the temperature slot. -/
theorem meteoclimatic_sentinel_blanked :
    meteoclimatic_parse meteoOracleDT id dtNow (some payloadSentinel) =
      .ok fieldsSentinel ∧
    smart_parse_float (some "100") = .ok (some 100) ∧
    fieldsSentinel.live.temperature = none ∧
    fieldsSentinel.live.temperature ≠ some 100 := by
  decide

/-- C3 (amended).  Whenever `MeteoclimaticReader.parse` succeeds, every
whitelisted measurement is recorded through the
`None if x == 100 else x` blanking of this generation of the adapter:
the produced fields hold `blankIfSentinel100` of each parsed value, and
a value equal to the sentinel 100 is therefore replaced by `None` (no
log entry is emitted in this generation; the live rain and wind-gust
slots and the daily max-wind-speed slot are never populated). -/
theorem meteoclimatic_parse_sentinel_policy
    (parse_datetime : String → Except String (Option PyDateTime))
    (to_local : PyDateTime → PyDateTime) (now : PyDateTime)
    (payload : String) (d : List (String × String)) (ts_str : String)
    (ts : PyDateTime) (tempv wsv humv presv crv maxtv mintv gustv : Option PyQ)
    (hne : ¬ payload.toList = [])
    (hdict : meteoDataDict payload = .ok d)
    (hts1 : d.lookup "record_timestamp" = some ts_str)
    (hts2 : parse_datetime ts_str = .ok (some ts))
    (htemp : smart_parse_float (d.lookup "current_temperature_celsius") =
      .ok tempv)
    (hws : smart_parse_float (d.lookup "current_wind_speed_kph") = .ok wsv)
    (hhum : smart_parse_float (d.lookup "relative_humidity") = .ok humv)
    (hpres : smart_parse_float (d.lookup "pressure_hpa") = .ok presv)
    (hcr : smart_parse_float
      (d.lookup "total_daily_precipitation_at_record_timestamp") = .ok crv)
    (hmaxt : smart_parse_float (d.lookup "daily_max_temperature") = .ok maxtv)
    (hmint : smart_parse_float (d.lookup "daily_min_temperature") = .ok mintv)
    (hgust : smart_parse_float (d.lookup "daily_max_wind_gust") = .ok gustv) :
    meteoclimatic_parse parse_datetime to_local now (some payload) = .ok
      { source_timestamp := some (to_local ts)
        taken_timestamp := now
        live := ⟨blankIfSentinel100 tempv, blankIfSentinel100 wsv,
          blankIfSentinel100 (smart_azimuth
            (pyValOfOpt (d.lookup "current_wind_direction"))),
          none, blankIfSentinel100 humv, blankIfSentinel100 presv, none⟩
        daily := ⟨blankIfSentinel100 maxtv, blankIfSentinel100 mintv, none,
          blankIfSentinel100 gustv, blankIfSentinel100 crv⟩
        flagged := false } ∧
    (∀ v : Option PyQ, v = some 100 → blankIfSentinel100 v = none) := by
  constructor
  · simp only [meteoclimatic_parse, hne, if_false, Bind.bind, Except.bind,
      hdict, hts1, hts2, htemp, hws, hhum, hpres, hcr, hmaxt, hmint, hgust,
      get_fields, ite_false, Pure.pure, Except.pure]
  · intro v hv
    simp [blankIfSentinel100, hv]

/-- C3 witness: the amended theorem at the sentinel payload, where the
temperature measurement parses to exactly 100 and is blanked. -/
theorem meteoclimatic_parse_sentinel_policy_witness :
    smart_parse_float (dictSentinel.lookup "current_temperature_celsius") =
      .ok (some 100) ∧
    meteoclimatic_parse meteoOracleDT id dtNow (some payloadSentinel) = .ok
      { source_timestamp := some (id dtNow)
        taken_timestamp := dtNow
        live := ⟨blankIfSentinel100 (some 100), blankIfSentinel100 (some 14),
          blankIfSentinel100 (smart_azimuth
            (pyValOfOpt (dictSentinel.lookup "current_wind_direction"))),
          none, blankIfSentinel100 (some 70),
          blankIfSentinel100 (some (pyq 5094 5)), none⟩
        daily := ⟨blankIfSentinel100 (some (pyq 96 5)),
          blankIfSentinel100 (some (pyq 46 5)), none,
          blankIfSentinel100 (some 37), blankIfSentinel100 (some 0)⟩
        flagged := false } :=
  ⟨by decide,
    (meteoclimatic_parse_sentinel_policy meteoOracleDT id dtNow
      payloadSentinel dictSentinel "12/05/2024 10:05" dtNow
      (some 100) (some 14) (some 70) (some (pyq 5094 5)) (some 0)
      (some (pyq 96 5)) (some (pyq 46 5)) (some 37)
      (by decide) (by decide) (by decide) (by decide) (by decide) (by decide)
      (by decide) (by decide) (by decide) (by decide) (by decide)
      (by decide)).1⟩

/-! ### C4 theorem -/

/-- C4.  The WeatherlinkV2 daily endpoint is *not* handled as optional
by the code: with a successful live fetch, a daily status of 404 makes
`fetch_data` evaluate `.status_code` on `None` (an `AttributeError`, no
warning) and `get_data` raises instead of emitting a record; with a
daily status of 204 the warning branch does run and the envelope is
built without the `"daily"` key, but `parse` then raises `KeyError` on
`data["daily"]`, so again no record is emitted.  With the daily payload
present the very same live data yields a record — the failure is
precisely the missing daily half. -/
theorem weatherlink_v2_daily_optionality_bug :
    weatherlink_v2_fetch_data live200 daily404 =
      .error "AttributeError: NoneType has no attribute status_code" ∧
    WeatherReaderV0.get_data cfgV2 100000 "rec-2" stV2
      ((weatherlink_v2_fetch_data live200 daily404).map Prod.fst) parseV2fn =
      .exn "AttributeError: NoneType has no attribute status_code" ∧
    weatherlink_v2_fetch_data live200 daily204 =
      .ok (some ⟨liveBodyV2, none⟩, true) ∧
    weatherlink_v2_parse fromTsV2 dtNow ⟨liveBodyV2, none⟩ =
      .error "KeyError: daily" ∧
    WeatherReaderV0.get_data cfgV2 100000 "rec-2" stV2
      ((weatherlink_v2_fetch_data live200 daily204).map Prod.fst) parseV2fn =
      .exn "KeyError: daily" ∧
    WeatherReaderV0.get_data cfgV2 100000 "rec-2" stV2
      (.ok (some ⟨liveBodyV2, some dailyBodyV2⟩)) parseV2fn =
      .record recV2 none := by
  refine ⟨by decide, by decide, by decide, by decide, by decide, by decide⟩

end Gatherer
